import Mathlib

/-!
EDL core: a shallow embedding of lexer, parser and interpreter

This file embeds the `edl-lang/edl` core crate (files `core/src/lexer.rs`,
`core/src/parser.rs`, `core/src/runtime.rs`, `core/src/ast.rs`) into Lean and
settles the frozen claims about it.

Modelling conventions:
* Rust `f64` is modelled by `ℚ`.  Every numeric computation exercised by a
  theorem below (small integer arithmetic, division, comparison) is exact in
  `f64`, so the rational model agrees with the double model on those inputs.
  Floating-point-specific values (`inf`, `NaN`, sub-ulp rounding) are outside
  the model and noted where relevant.
* Rust `HashMap<String, V>` is modelled by an association list with
  insert-replaces-existing-key semantics (`mapInsert`); the interpreter only
  ever consults maps through `get`/`contains`/`insert`, which agree.
* `&mut self` state threading is modelled by explicit state passing: each
  evaluation function returns its result together with the updated
  environment, and `Environment::with_parent`'s `parent.clone()` is the
  ordinary by-value use of the parent in a pure language, which has exactly
  the Rust clone semantics (later mutations of the copy do not affect the
  original).
* Recursion in the interpreter and parser can diverge in the source, so every
  recursive function takes fuel and returns `none` when the fuel runs out.
  `none` is the artificial cut-off marker, never a program outcome; no theorem
  below depends on a fuel exhaustion.
* The single blocking `stdin` read performed by the `input` builtin is
  modelled by an ambient `stdin` string passed to the evaluator; console
  output of `print` is evaluated for its side effects on the environment but
  the text sink itself is not recorded (no claim observes it).
-/

set_option maxHeartbeats 1000000

namespace EDL

/-! ## AST (`core/src/ast.rs`) -/

/-- `ast.rs` `enum BinOp`. -/
inductive BinOp where
  | add | sub | mul | div | eq | neq | lt | lte | gt | gte | and | or | pow
  | mod | concat | inOp | contains | fieldAccess | instanceOf
  | bitAnd | bitOr | bitXor | bitShiftLeft | bitShiftRight | bitNot
  | range | rangeInclusive | nullCoalesce | arrowFn | is | pipeline
  | setUnion | setInter | setDiff
  deriving DecidableEq, Repr

/-- `ast.rs` `enum UnOp`. -/
inductive UnOp where
  | neg | not | ref | deref
  deriving DecidableEq, Repr

mutual

/-- `ast.rs` `enum Expr`.  Constructor names follow the source, renamed only
where Lean reserves the word (`Variable` → `var`, `Match` → `matchE`,
`Instance` → `instanceE`). -/
inductive Expr where
  | number (n : ℚ)
  | bool (b : Bool)
  | string (s : String)
  | var (name : String)
  | binary (left : Expr) (op : BinOp) (right : Expr)
  | unary (op : UnOp) (expr : Expr)
  | call (function : Expr) (arguments : List Expr)
  | assign (name : String) (expr : Expr)
  | block (stmts : List Stmt)
  | lambda (params : List String) (body : List Stmt)
  | list (elems : List Expr)
  | dict (pairs : List (Expr × Expr))
  | tuple (elems : List Expr)
  | annotated (e : Expr) (ty : String)
  | invalid (text : String)
  | fieldAccess (object : Expr) (field : String)
  | instanceE (typeName : String) (fields : List (String × Expr))
  | index (collection : Expr) (idx : Expr)
  | await_ (e : Expr)
  | yieldE (e : Option Expr)
  | matchE (e : Expr) (arms : List (Expr × Expr))
  | ternary (condition : Expr) (thenExpr : Expr) (elseExpr : Expr)
  | interpolatedString (parts : List Expr)

/-- `ast.rs` `enum Stmt` (suffix `S` where the source name is a Lean
keyword). -/
inductive Stmt where
  | exprS (e : Expr)
  | letS (name : String) (expr : Expr)
  | constS (name : String) (expr : Expr)
  | funcS (name : String) (params : List String) (body : List Stmt)
  | returnS (e : Option Expr)
  | ifS (condition : Expr) (thenBranch : List Stmt) (elseBranch : Option (List Stmt))
  | whileS (condition : Expr) (body : List Stmt)
  | forS (var : String) (start : Expr) (stop : Expr) (body : List Stmt)
  | importS (path : String)
  | importAlias (path : String) (aliasName : String)
  | blockS (stmts : List Stmt)
  | breakS
  | continueS
  | printS (e : Expr)
  | printArgs (es : List Expr)
  | typeS (name : String) (fields : List (String × Expr)) (methods : List Stmt)
  | structS (name : String) (fields : List (String × Expr))
  | enumS (name : String) (variants : List String)
  | matchS (e : Expr) (arms : List (Expr × List Stmt))
  | tryCatch (tryBlock : List Stmt) (catchParam : String) (catchBlock : List Stmt)
  | deferS (body : List Stmt)
  | switchS (e : Expr) (cases : List (Expr × List Stmt)) (default : Option (List Stmt))
  | asyncS (body : List Stmt)
  | invalid (text : String)
  | nativeFunction (name : String) (params : List String) (body : List Stmt)

end

/-! Structural equality on the AST: Rust's derived `PartialEq` for
`Expr`/`Stmt`, written out because Lean cannot derive decidable equality for
this nested mutual inductive.  Only `runtime.rs`'s derived `PartialEq` on
`Function` (and through it `Value`) consults it. -/

mutual

def exprBeq : Expr → Expr → Bool
  | .number a, .number b => a == b
  | .bool a, .bool b => a == b
  | .string a, .string b => a == b
  | .var a, .var b => a == b
  | .binary l1 o1 r1, .binary l2 o2 r2 => exprBeq l1 l2 && o1 == o2 && exprBeq r1 r2
  | .unary o1 e1, .unary o2 e2 => o1 == o2 && exprBeq e1 e2
  | .call f1 a1, .call f2 a2 => exprBeq f1 f2 && exprListBeq a1 a2
  | .assign n1 e1, .assign n2 e2 => n1 == n2 && exprBeq e1 e2
  | .block s1, .block s2 => stmtListBeq s1 s2
  | .lambda p1 b1, .lambda p2 b2 => p1 == p2 && stmtListBeq b1 b2
  | .list e1, .list e2 => exprListBeq e1 e2
  | .dict p1, .dict p2 => exprPairListBeq p1 p2
  | .tuple e1, .tuple e2 => exprListBeq e1 e2
  | .annotated e1 t1, .annotated e2 t2 => exprBeq e1 e2 && t1 == t2
  | .invalid t1, .invalid t2 => t1 == t2
  | .fieldAccess o1 f1, .fieldAccess o2 f2 => exprBeq o1 o2 && f1 == f2
  | .instanceE n1 f1, .instanceE n2 f2 => n1 == n2 && namedExprListBeq f1 f2
  | .index c1 i1, .index c2 i2 => exprBeq c1 c2 && exprBeq i1 i2
  | .await_ e1, .await_ e2 => exprBeq e1 e2
  | .yieldE e1, .yieldE e2 => optionExprBeq e1 e2
  | .matchE e1 a1, .matchE e2 a2 => exprBeq e1 e2 && exprPairListBeq a1 a2
  | .ternary c1 t1 e1, .ternary c2 t2 e2 => exprBeq c1 c2 && exprBeq t1 t2 && exprBeq e1 e2
  | .interpolatedString p1, .interpolatedString p2 => exprListBeq p1 p2
  | _, _ => false

def exprListBeq : List Expr → List Expr → Bool
  | [], [] => true
  | a :: as_, b :: bs => exprBeq a b && exprListBeq as_ bs
  | _, _ => false

def exprPairListBeq : List (Expr × Expr) → List (Expr × Expr) → Bool
  | [], [] => true
  | (a1, a2) :: as_, (b1, b2) :: bs => exprBeq a1 b1 && exprBeq a2 b2 && exprPairListBeq as_ bs
  | _, _ => false

def namedExprListBeq : List (String × Expr) → List (String × Expr) → Bool
  | [], [] => true
  | (n1, e1) :: as_, (n2, e2) :: bs => n1 == n2 && exprBeq e1 e2 && namedExprListBeq as_ bs
  | _, _ => false

def optionExprBeq : Option Expr → Option Expr → Bool
  | none, none => true
  | some a, some b => exprBeq a b
  | _, _ => false

def stmtBeq : Stmt → Stmt → Bool
  | .exprS a, .exprS b => exprBeq a b
  | .letS n1 e1, .letS n2 e2 => n1 == n2 && exprBeq e1 e2
  | .constS n1 e1, .constS n2 e2 => n1 == n2 && exprBeq e1 e2
  | .funcS n1 p1 b1, .funcS n2 p2 b2 => n1 == n2 && p1 == p2 && stmtListBeq b1 b2
  | .returnS e1, .returnS e2 => optionExprBeq e1 e2
  | .ifS c1 t1 e1, .ifS c2 t2 e2 =>
      exprBeq c1 c2 && stmtListBeq t1 t2 && optionStmtListBeq e1 e2
  | .whileS c1 b1, .whileS c2 b2 => exprBeq c1 c2 && stmtListBeq b1 b2
  | .forS v1 s1 e1 b1, .forS v2 s2 e2 b2 =>
      v1 == v2 && exprBeq s1 s2 && exprBeq e1 e2 && stmtListBeq b1 b2
  | .importS p1, .importS p2 => p1 == p2
  | .importAlias p1 a1, .importAlias p2 a2 => p1 == p2 && a1 == a2
  | .blockS s1, .blockS s2 => stmtListBeq s1 s2
  | .breakS, .breakS => true
  | .continueS, .continueS => true
  | .printS e1, .printS e2 => exprBeq e1 e2
  | .printArgs e1, .printArgs e2 => exprListBeq e1 e2
  | .typeS n1 f1 m1, .typeS n2 f2 m2 =>
      n1 == n2 && namedExprListBeq f1 f2 && stmtListBeq m1 m2
  | .structS n1 f1, .structS n2 f2 => n1 == n2 && namedExprListBeq f1 f2
  | .enumS n1 v1, .enumS n2 v2 => n1 == n2 && v1 == v2
  | .matchS e1 a1, .matchS e2 a2 => exprBeq e1 e2 && caseListBeq a1 a2
  | .tryCatch t1 c1 b1, .tryCatch t2 c2 b2 =>
      stmtListBeq t1 t2 && c1 == c2 && stmtListBeq b1 b2
  | .deferS b1, .deferS b2 => stmtListBeq b1 b2
  | .switchS e1 c1 d1, .switchS e2 c2 d2 =>
      exprBeq e1 e2 && caseListBeq c1 c2 && optionStmtListBeq d1 d2
  | .asyncS b1, .asyncS b2 => stmtListBeq b1 b2
  | .invalid t1, .invalid t2 => t1 == t2
  | .nativeFunction n1 p1 b1, .nativeFunction n2 p2 b2 =>
      n1 == n2 && p1 == p2 && stmtListBeq b1 b2
  | _, _ => false

def stmtListBeq : List Stmt → List Stmt → Bool
  | [], [] => true
  | a :: as_, b :: bs => stmtBeq a b && stmtListBeq as_ bs
  | _, _ => false

def optionStmtListBeq : Option (List Stmt) → Option (List Stmt) → Bool
  | none, none => true
  | some a, some b => stmtListBeq a b
  | _, _ => false

def caseListBeq : List (Expr × List Stmt) → List (Expr × List Stmt) → Bool
  | [], [] => true
  | (e1, s1) :: as_, (e2, s2) :: bs => exprBeq e1 e2 && stmtListBeq s1 s2 && caseListBeq as_ bs
  | _, _ => false

end

/-! ## Runtime values (`core/src/runtime.rs`) -/

mutual

/-- `runtime.rs` `enum Value`. -/
inductive Value where
  | number (n : ℚ)
  | bool (b : Bool)
  | string (s : String)
  | function (f : Fn)
  | typeV (t : TypeDef)
  | null
  | list (elems : List Value)
  | instanceV (i : Inst)

/-- `runtime.rs` `struct Function` (parameter list and body).  Named `Fn` to
avoid shadowing Mathlib's `Function` namespace. -/
inductive Fn where
  | mk (params : List String) (body : List Stmt)

/-- `runtime.rs` `struct Type` (`Type` is a Lean universe keyword). -/
inductive TypeDef where
  | mk (name : String) (fields : List (String × Value)) (methods : List (String × Fn))

/-- `runtime.rs` `struct Instance`. -/
inductive Inst where
  | mk (typ : TypeDef) (fields : List (String × Value))

end

def Fn.params : Fn → List String
  | .mk p _ => p

def Fn.body : Fn → List Stmt
  | .mk _ b => b

def TypeDef.name : TypeDef → String
  | .mk n _ _ => n

def TypeDef.fields : TypeDef → List (String × Value)
  | .mk _ f _ => f

def TypeDef.methods : TypeDef → List (String × Fn)
  | .mk _ _ m => m

def Inst.typ : Inst → TypeDef
  | .mk t _ => t

def Inst.fields : Inst → List (String × Value)
  | .mk _ f => f

/-! ## The environment chain (`runtime.rs` `struct Environment`)

The source stores `parent : Option<Box<Environment>>`; the two constructors
below inline that `Option` (`root` = `parent: None`, `child` = `parent:
Some(..)`) so that recursion along the chain is structural. -/

inductive Environment where
  | root (vars : List (String × Value))
  | child (vars : List (String × Value)) (parent : Environment)

def Environment.vars : Environment → List (String × Value)
  | .root v => v
  | .child v _ => v

/-- `HashMap::get`. -/
def mapGet (key : String) : List (String × Value) → Option Value
  | [] => none
  | (k, v) :: rest => if k = key then some v else mapGet key rest

/-- `HashMap::contains_key`. -/
def mapContains (key : String) : List (String × Value) → Bool
  | [] => false
  | (k, _) :: rest => if k = key then true else mapContains key rest

/-- `HashMap::insert` (replaces an existing binding of the key). -/
def mapInsert (key : String) (val : Value) : List (String × Value) → List (String × Value)
  | [] => [(key, val)]
  | (k, v) :: rest =>
      if k = key then (key, val) :: rest else (k, v) :: mapInsert key val rest

/-- `Environment::new`. -/
def Environment.new : Environment := .root []

/-- `Environment::with_parent` — note the source clones the parent
(`Some(Box::new(parent.clone()))`); taking the parent by value is exactly that
clone in the pure model. -/
def Environment.withParent (parent : Environment) : Environment :=
  .child [] parent

/-- `Environment::get`: own frame first, then the parent chain. -/
def Environment.get : Environment → String → Option Value
  | .root vars, key => mapGet key vars
  | .child vars parent, key =>
      match mapGet key vars with
      | some v => some v
      | none => parent.get key

/-- `Environment::set`: always writes the innermost frame. -/
def Environment.set : Environment → String → Value → Environment
  | .root vars, key, val => .root (mapInsert key val vars)
  | .child vars parent, key, val => .child (mapInsert key val vars) parent

/-- `Environment::assign`: mutates the first frame that already owns the key,
returns whether a target was found. -/
def Environment.assign : Environment → String → Value → Bool × Environment
  | .root vars, key, val =>
      if mapContains key vars then (true, .root (mapInsert key val vars))
      else (false, .root vars)
  | .child vars parent, key, val =>
      if mapContains key vars then (true, .child (mapInsert key val vars) parent)
      else
        match parent.assign key val with
        | (found, parent') => (found, .child vars parent')

/-! ## Runtime errors and pure helpers -/

/-- `runtime.rs` `enum RuntimeError`. -/
inductive RuntimeError where
  | Message (s : String)
  | Return (v : Value)

/-- `runtime.rs` `fn is_truthy`. -/
def isTruthy : Value → Bool
  | .bool b => b
  | .null => false
  | .number n => n != 0
  | .string s => !(s.isEmpty)
  | .function _ => true
  | .typeV _ => true
  | .list vals => !(vals.isEmpty)
  | .instanceV _ => true

/-- `runtime.rs` `fn get_num`: the number, or `0.0` for any other variant. -/
def getNum : Value → ℚ
  | .number n => n
  | _ => 0

mutual

/-- Structural equality of values: Rust's derived `PartialEq` on `Value`.
On numbers `f64` `PartialEq` and `ℚ` equality agree for every value the
claims exercise (`-0.0 == 0.0` holds on both sides: the model has a single
zero).  On the `HashMap` fields Rust compares as unordered maps while this
compares the association lists pointwise; the interpreter never produces two
maps with the same bindings in different orders from the same program, and no
claim compares `Type`/`Instance` values. -/
def valueBeq : Value → Value → Bool
  | .number a, .number b => a == b
  | .bool a, .bool b => a == b
  | .string a, .string b => a == b
  | .function a, .function b => fnBeq a b
  | .typeV a, .typeV b => typeBeq a b
  | .null, .null => true
  | .list a, .list b => valueListBeq a b
  | .instanceV a, .instanceV b => instBeq a b
  | _, _ => false

def valueListBeq : List Value → List Value → Bool
  | [], [] => true
  | a :: as_, b :: bs => valueBeq a b && valueListBeq as_ bs
  | _, _ => false

def valueMapBeq : List (String × Value) → List (String × Value) → Bool
  | [], [] => true
  | (k1, v1) :: r1, (k2, v2) :: r2 => k1 == k2 && valueBeq v1 v2 && valueMapBeq r1 r2
  | _, _ => false

def fnBeq : Fn → Fn → Bool
  | .mk p1 b1, .mk p2 b2 => p1 == p2 && stmtListBeq b1 b2

def fnMapBeq : List (String × Fn) → List (String × Fn) → Bool
  | [], [] => true
  | (k1, v1) :: r1, (k2, v2) :: r2 => k1 == k2 && fnBeq v1 v2 && fnMapBeq r1 r2
  | _, _ => false

def typeBeq : TypeDef → TypeDef → Bool
  | .mk n1 f1 m1, .mk n2 f2 m2 => n1 == n2 && valueMapBeq f1 f2 && fnMapBeq m1 m2

def instBeq : Inst → Inst → Bool
  | .mk t1 f1, .mk t2 f2 => typeBeq t1 t2 && valueMapBeq f1 f2

end

/-- Model of `f64::powf` inside `ℚ`: exact for integer exponents (the only
exponents representable exactly in both models); a non-integer exponent is
outside the rational model and mapped to `0` (no claim exercises `Pow`).
`0.0f64.powf(-1.0)` is `inf`, also outside the model (`zpow` gives `0`). -/
def ratPow (a b : ℚ) : ℚ :=
  if b.den = 1 then a ^ b.num else 0

/-! ## Decimal numerals

Model of `str::parse::<f64>` on the plain decimal strings the lexer and the
`to_number` builtin feed it.  Exact below `2^53` where `f64` represents every
integer; exponent forms, `inf` and `NaN` spellings are outside the model (no
claim exercises them). -/

def charToDigit (c : Char) : ℕ := c.toNat - 48

def isDigitChar (c : Char) : Bool := decide ('0' ≤ c) && decide (c ≤ '9')

/-- Value of a digit string, most significant first (the usual base-10 fold). -/
def digitsValAux : List Char → ℕ → ℕ
  | [], acc => acc
  | c :: cs, acc => digitsValAux cs (10 * acc + charToDigit c)

/-- Split a character list at the first `'.'` (if any). -/
def splitAtDot : List Char → List Char × Option (List Char)
  | [] => ([], none)
  | c :: cs =>
      if c = '.' then ([], some cs)
      else
        match splitAtDot cs with
        | (a, b) => (c :: a, b)

/-- `parse::<f64>` on an unsigned decimal numeral: digits with at most one
dot, at least one digit overall (`"1."` and `".5"` parse, `""`, `"."` and
`"1.2.3"` do not — as in Rust). -/
def parseDecimal (ds : List Char) : Option ℚ :=
  match splitAtDot ds with
  | (intPart, none) =>
      if intPart.all isDigitChar && !intPart.isEmpty then
        some (digitsValAux intPart 0) else none
  | (intPart, some rest) =>
      match splitAtDot rest with
      | (fracPart, none) =>
          if intPart.all isDigitChar && fracPart.all isDigitChar
              && !(intPart.isEmpty && fracPart.isEmpty) then
            some ((digitsValAux intPart 0 : ℚ)
              + (digitsValAux fracPart 0 : ℚ) / (10 : ℚ) ^ fracPart.length)
          else none
      | (_, some _) => none

/-- `parse::<f64>` with an optional sign (used by the `to_number` builtin). -/
def parseF64 (s : String) : Option ℚ :=
  match s.toList with
  | '-' :: rest => (parseDecimal rest).map (fun q => -q)
  | '+' :: rest => parseDecimal rest
  | l => parseDecimal l

/-- `f64 as i64`: truncation toward zero. -/
def ratTrunc (q : ℚ) : ℤ := if q < 0 then ⌈q⌉ else ⌊q⌋

/-- `f64 as usize`: truncation, saturating at zero for negative input. -/
def ratToUsize (q : ℚ) : ℕ := (ratTrunc q).toNat

/-- `runtime.rs` `fn eval_binary`.  The wildcard arm of the source
(`Not yet implemented`) covers every operator the interpreter does not
implement. -/
def evalBinary (op : BinOp) (left right : Value) : Except RuntimeError Value :=
  match op with
  | .add =>
      match left, right with
      | .number a, .number b => .ok (.number (a + b))
      | .string a, .string b => .ok (.string (a ++ b))
      | _, _ => .error (.Message "Invalid operands for '+'")
  | .sub =>
      match left, right with
      | .number a, .number b => .ok (.number (a - b))
      | _, _ => .error (.Message "Invalid operands for '-'")
  | .mul =>
      match left, right with
      | .number a, .number b => .ok (.number (a * b))
      | _, _ => .error (.Message "Invalid operands for '*'")
  | .div =>
      match left, right with
      | .number a, .number b =>
          if b = 0 then .error (.Message "Division by zero")
          else .ok (.number (a / b))
      | _, _ => .error (.Message "Invalid operands for '/'")
  | .eq => .ok (.bool (valueBeq left right))
  | .neq => .ok (.bool (!(valueBeq left right)))
  | .lt =>
      match left, right with
      | .number a, .number b => .ok (.bool (a < b))
      | _, _ => .error (.Message "Invalid operands for '<'")
  | .lte =>
      match left, right with
      | .number a, .number b => .ok (.bool (a ≤ b))
      | _, _ => .error (.Message "Invalid operands for '<='")
  | .gt =>
      match left, right with
      | .number a, .number b => .ok (.bool (b < a))
      | _, _ => .error (.Message "Invalid operands for '>'")
  | .gte =>
      match left, right with
      | .number a, .number b => .ok (.bool (b ≤ a))
      | _, _ => .error (.Message "Invalid operands for '>='")
  | .and =>
      match left, right with
      | .bool a, .bool b => .ok (.bool (a && b))
      | _, _ => .error (.Message "Invalid operands for 'and'")
  | .or =>
      match left, right with
      | .bool a, .bool b => .ok (.bool (a || b))
      | _, _ => .error (.Message "Invalid operands for 'or'")
  | .pow => .ok (.number (ratPow (getNum left) (getNum right)))
  | _ => .error (.Message "Not yet implemented binary operator")

/-! ## The interpreter (`runtime.rs` `impl Interpreter`) -/

/-- The evaluation result: `none` is fuel exhaustion (an artifact of the
model, never a program outcome), otherwise the `Result<Value, RuntimeError>`
together with the environment as the `&mut self` left it (also on error). -/
abbrev ERes := Option (Except RuntimeError Value × Environment)

/-- The `?` operator on `ERes`: propagate fuel exhaustion and errors,
continue with the value and the updated environment. -/
def ebind (x : ERes) (f : Value → Environment → ERes) : ERes :=
  match x with
  | none => none
  | some (.error e, env) => some (.error e, env)
  | some (.ok v, env) => f v env

/-- `runtime.rs` `fn function_is_input`. -/
def functionIsInput : Expr → Bool
  | .var name => name == "input"
  | _ => false

/-- `runtime.rs` `fn function_is_to_number`. -/
def functionIsToNumber : Expr → Bool
  | .var name => name == "to_number"
  | _ => false

/-- `runtime.rs` `fn function_is_length`. -/
def functionIsLength : Expr → Bool
  | .var name => name == "length"
  | _ => false

/-- `runtime.rs` `fn function_is_push`. -/
def functionIsPush : Expr → Bool
  | .var name => name == "push"
  | _ => false

/-- `runtime.rs` `fn function_is_remove`. -/
def functionIsRemove : Expr → Bool
  | .var name => name == "remove"
  | _ => false

/-- Parameter binding in the call arm: `params.iter().zip(args)` followed by
`local_env.set` for each pair (zip truncates at the shorter list, exactly as
in the source; the arity check makes the lists equal on the user path). -/
def bindParams : Environment → List String → List Value → Environment
  | env, [], _ => env
  | env, _ :: _, [] => env
  | env, p :: ps, a :: as_ => bindParams (env.set p a) ps as_

def fnMapGet (key : String) : List (String × Fn) → Option Fn
  | [] => none
  | (k, v) :: rest => if k = key then some v else fnMapGet key rest

def fnMapInsert (key : String) (f : Fn) : List (String × Fn) → List (String × Fn)
  | [] => [(key, f)]
  | (k, v) :: rest =>
      if k = key then (key, f) :: rest else (k, v) :: fnMapInsert key f rest

/-- The method-collection loop of the `Stmt::Type` arm: keep the
`Stmt::Function` entries, in order, as a name-keyed map. -/
def collectMethods : List (String × Fn) → List Stmt → List (String × Fn)
  | acc, [] => acc
  | acc, .funcS name params body :: rest =>
      collectMethods (fnMapInsert name (.mk params body) acc) rest
  | acc, _ :: rest => collectMethods acc rest

/-- `Interpreter::new`: the root environment seeded with the five builtin
placeholder functions (empty bodies used purely as dispatch keys). -/
def initialEnv : Environment :=
  ((((Environment.new.set "input" (.function (.mk [] []))).set
      "to_number" (.function (.mk ["x"] []))).set
      "length" (.function (.mk ["list"] []))).set
      "push" (.function (.mk ["list", "item"] []))).set
      "remove" (.function (.mk ["list", "index"] []))

mutual

/-- `Interpreter::eval_stmt`.  `stdin` is the ambient line the `input`
builtin would read; `fuel` bounds the recursion depth (`none` = exhausted).
The `println!` sinks of `Print`/`PrintArgs` are not recorded; their argument
evaluation (the part that can change the environment or fail) is. -/
def evalStmt (stdin : String) : Nat → Environment → Stmt → ERes
  | 0, _, _ => none
  | fuel + 1, env, stmt =>
    match stmt with
    | .exprS e => evalExpr stdin fuel env e
    | .letS name e =>
        ebind (evalExpr stdin fuel env e) fun v env1 =>
          some (.ok .null, env1.set name v)
    | .funcS name params body =>
        some (.ok .null, env.set name (.function (.mk params body)))
    | .returnS e =>
        match e with
        | some ex =>
            ebind (evalExpr stdin fuel env ex) fun v env1 =>
              some (.error (.Return v), env1)
        | none => some (.error (.Return .null), env)
    | .ifS cond thenBranch elseBranch =>
        ebind (evalExpr stdin fuel env cond) fun c env1 =>
          if isTruthy c then evalBlockS stdin fuel env1 thenBranch
          else
            match elseBranch with
            | some els => evalBlockS stdin fuel env1 els
            | none => some (.ok .null, env1)
    | .whileS cond body => evalWhileLoop stdin fuel env cond body
    | .forS var startE endE body =>
        ebind (evalExpr stdin fuel env startE) fun sv env1 =>
        ebind (evalExpr stdin fuel env1 endE) fun ev env2 =>
          evalForLoop stdin fuel env2 var (ratTrunc (getNum sv)) (ratTrunc (getNum ev)) body
    | .importS _ => some (.ok .null, env)
    | .blockS stmts => evalBlockS stdin fuel env stmts
    | .breakS => some (.error (.Message "Break not implemented"), env)
    | .continueS => some (.error (.Message "Continue not implemented"), env)
    | .printS e =>
        ebind (evalExpr stdin fuel env e) fun _ env1 => some (.ok .null, env1)
    | .printArgs args =>
        match evalExprs stdin fuel env args with
        | none => none
        | some (.error e, env1) => some (.error e, env1)
        | some (.ok _, env1) => some (.ok .null, env1)
    | .typeS name fields methods =>
        match evalInstFields stdin fuel env [] fields with
        | none => none
        | some (.error e, env1) => some (.error e, env1)
        | some (.ok fieldsMap, env1) =>
            some (.ok .null,
              env1.set name (.typeV (.mk name fieldsMap (collectMethods [] methods))))
    | _ => some (.error (.Message "Not yet implemented statement"), env)

/-- `Interpreter::eval_block` — the sequential last-value loop.  It runs the
nested statements in the CURRENT environment: no child frame is created
(`/// N'utilise pas de nouvel environnement pour le bloc principal`), and the
`Stmt::Block` arm of `eval_stmt` reuses exactly this function. -/
def evalBlockS (stdin : String) : Nat → Environment → List Stmt → ERes
  | 0, _, _ => none
  | _ + 1, env, [] => some (.ok .null, env)
  | fuel + 1, env, s :: rest =>
      match evalStmt stdin fuel env s with
      | none => none
      | some (.error e, env1) => some (.error e, env1)
      | some (.ok v, env1) =>
          match rest with
          | [] => some (.ok v, env1)
          | _ => evalBlockS stdin fuel env1 rest

/-- `runtime.rs` free `fn eval_body` — textually the same loop as
`eval_block`, used for user-function bodies. -/
def evalBodyF (stdin : String) : Nat → Environment → List Stmt → ERes
  | 0, _, _ => none
  | _ + 1, env, [] => some (.ok .null, env)
  | fuel + 1, env, s :: rest =>
      match evalStmt stdin fuel env s with
      | none => none
      | some (.error e, env1) => some (.error e, env1)
      | some (.ok v, env1) =>
          match rest with
          | [] => some (.ok v, env1)
          | _ => evalBodyF stdin fuel env1 rest

/-- The `while` loop of the `Stmt::While` arm (condition re-evaluated each
iteration, body value discarded, result `Null`). -/
def evalWhileLoop (stdin : String) : Nat → Environment → Expr → List Stmt → ERes
  | 0, _, _, _ => none
  | fuel + 1, env, cond, body =>
      ebind (evalExpr stdin fuel env cond) fun c env1 =>
        if isTruthy c then
          ebind (evalBlockS stdin fuel env1 body) fun _ env2 =>
            evalWhileLoop stdin fuel env2 cond body
        else some (.ok .null, env1)

/-- The `for i in start..end` loop of the `Stmt::For` arm: exclusive upper
bound, loop variable `set` into the current frame each iteration. -/
def evalForLoop (stdin : String) :
    Nat → Environment → String → ℤ → ℤ → List Stmt → ERes
  | 0, _, _, _, _, _ => none
  | fuel + 1, env, var, i, stop, body =>
      if i < stop then
        ebind (evalBlockS stdin fuel (env.set var (.number (i : ℚ))) body) fun _ env2 =>
          evalForLoop stdin fuel env2 var (i + 1) stop body
      else some (.ok .null, env)

/-- The argument/element evaluation loop
(`iter().map(eval_expr).collect::<Result<_,_>>()`): left to right, stops at
the first error. -/
def evalExprs (stdin : String) :
    Nat → Environment → List Expr → Option (Except RuntimeError (List Value) × Environment)
  | 0, _, _ => none
  | _ + 1, env, [] => some (.ok [], env)
  | fuel + 1, env, e :: es =>
      match evalExpr stdin fuel env e with
      | none => none
      | some (.error err, env1) => some (.error err, env1)
      | some (.ok v, env1) =>
          match evalExprs stdin fuel env1 es with
          | none => none
          | some (.error err, env2) => some (.error err, env2)
          | some (.ok vs, env2) => some (.ok (v :: vs), env2)

/-- The field-initialiser loop shared by the `Stmt::Type` arm (accumulator
starts empty) and the `Expr::Instance` arm (accumulator starts at the type's
default fields): evaluate each initialiser in order and insert it. -/
def evalInstFields (stdin : String) :
    Nat → Environment → List (String × Value) → List (String × Expr) →
    Option (Except RuntimeError (List (String × Value)) × Environment)
  | 0, _, _, _ => none
  | _ + 1, env, acc, [] => some (.ok acc, env)
  | fuel + 1, env, acc, (k, e) :: rest =>
      match evalExpr stdin fuel env e with
      | none => none
      | some (.error err, env1) => some (.error err, env1)
      | some (.ok v, env1) => evalInstFields stdin fuel env1 (mapInsert k v acc) rest

/-- `Interpreter::eval_expr`. -/
def evalExpr (stdin : String) : Nat → Environment → Expr → ERes
  | 0, _, _ => none
  | fuel + 1, env, expr =>
    match expr with
    | .number n => some (.ok (.number n), env)
    | .bool b => some (.ok (.bool b), env)
    | .string s => some (.ok (.string s), env)
    | .var name =>
        match env.get name with
        | some v => some (.ok v, env)
        | none => some (.error (.Message ("Undefined variable '" ++ name ++ "'")), env)
    | .assign name e =>
        ebind (evalExpr stdin fuel env e) fun v env1 =>
          match env1.assign name v with
          | (true, env2) => some (.ok v, env2)
          | (false, env2) =>
              some (.error (.Message ("Undefined variable '" ++ name ++ "'")), env2)
    | .block stmts => evalBlockS stdin fuel env stmts
    | .unary op e =>
        ebind (evalExpr stdin fuel env e) fun right env1 =>
          match op with
          | .neg => some (.ok (.number (-(getNum right))), env1)
          | .not => some (.ok (.bool (!(isTruthy right))), env1)
          | _ => some (.error (.Message "Not yet implemented unary operator"), env1)
    | .binary l op r =>
        ebind (evalExpr stdin fuel env l) fun lv env1 =>
        ebind (evalExpr stdin fuel env1 r) fun rv env2 =>
          match evalBinary op lv rv with
          | .ok v => some (.ok v, env2)
          | .error e => some (.error e, env2)
    | .call fexpr argsE =>
        ebind (evalExpr stdin fuel env fexpr) fun callee env1 =>
          match evalExprs stdin fuel env1 argsE with
          | none => none
          | some (.error e, env2) => some (.error e, env2)
          | some (.ok args, env2) =>
              match callee with
              | .function func =>
                  if func.params.isEmpty && func.body.isEmpty && functionIsInput fexpr then
                    some (.ok (.string stdin.trim), env2)
                  else if func.params == ["x"] && func.body.isEmpty
                      && functionIsToNumber fexpr then
                    match args.get? 0 with
                    | some (.string s) =>
                        match parseF64 s with
                        | some n => some (.ok (.number n), env2)
                        | none => some (.error (.Message "Invalid number"), env2)
                    | _ => some (.error (.Message "to_number expects a string"), env2)
                  else if func.params == ["list"] && func.body.isEmpty
                      && functionIsLength fexpr then
                    match args.get? 0 with
                    | some (.list l) => some (.ok (.number (l.length : ℚ)), env2)
                    | _ => some (.error (.Message "length expects a list"), env2)
                  else if func.params == ["list", "item"] && func.body.isEmpty
                      && functionIsPush fexpr then
                    match args.get? 0, args.get? 1 with
                    | some (.list l), some item => some (.ok (.list (l ++ [item])), env2)
                    | _, _ =>
                        some (.error (.Message "push expects a list and an item"), env2)
                  else if func.params == ["list", "index"] && func.body.isEmpty
                      && functionIsRemove fexpr then
                    match args.get? 0, args.get? 1 with
                    | some (.list l), some (.number idx) =>
                        if ratToUsize idx < l.length then
                          some (.ok (.list (l.eraseIdx (ratToUsize idx))), env2)
                        else some (.error (.Message "remove: index out of bounds"), env2)
                    | _, _ =>
                        some (.error (.Message "remove expects a list and an index"), env2)
                  else if func.params.length != args.length then
                    some (.error (.Message "Argument count mismatch"), env2)
                  else
                    match evalBodyF stdin fuel
                        (bindParams (Environment.withParent env2) func.params args)
                        func.body with
                    | none => none
                    | some (res, _envAfterBody) =>
                        match res with
                        | .error (.Return v) => some (.ok v, env2)
                        | other => some (other, env2)
              | _ => some (.error (.Message "Can only call functions!"), env2)
    | .list elems =>
        match evalExprs stdin fuel env elems with
        | none => none
        | some (.error e, env1) => some (.error e, env1)
        | some (.ok vals, env1) => some (.ok (.list vals), env1)
    | .instanceE typeName fields =>
        match env.get typeName with
        | none => some (.error (.Message ("Unknown type '" ++ typeName ++ "'")), env)
        | some (.typeV typ) =>
            match evalInstFields stdin fuel env typ.fields fields with
            | none => none
            | some (.error e, env1) => some (.error e, env1)
            | some (.ok fieldsMap, env1) =>
                some (.ok (.instanceV (.mk typ fieldsMap)), env1)
        | some _ => some (.error (.Message ("'" ++ typeName ++ "' is not a type")), env)
    | .fieldAccess object field =>
        ebind (evalExpr stdin fuel env object) fun obj env1 =>
          match obj with
          | .instanceV inst =>
              match fnMapGet field inst.typ.methods with
              | some func =>
                  some (.ok (.function (.mk ("self" :: func.params) func.body)), env1)
              | none =>
                  match mapGet field inst.fields with
                  | some v => some (.ok v, env1)
                  | none =>
                      some (.error
                        (.Message ("Unknown field or method '" ++ field ++ "'")), env1)
          | .list l =>
              if field == "push" then
                some (.ok (.function (.mk ["item"] [])), env1)
              else if field == "remove" then
                some (.ok (.function (.mk ["index"] [])), env1)
              else if field == "length" || field == "len" then
                some (.ok (.number (l.length : ℚ)), env1)
              else
                some (.error (.Message ("Unknown list method '" ++ field ++ "'")), env1)
          | .string s =>
              if field == "len" || field == "length" then
                some (.ok (.number (s.length : ℚ)), env1)
              else if field == "to_upper" then some (.ok (.string s.toUpper), env1)
              else if field == "to_lower" then some (.ok (.string s.toLower), env1)
              else
                some (.error (.Message ("Unknown string method '" ++ field ++ "'")), env1)
          | _ => some (.error (.Message "Not an instance"), env1)
    | _ => some (.error (.Message "Not yet implemented expression"), env)

end

/-- The top-level driver loop shared by `lib.rs eval_source` and the CLI
`run_file`: one `Interpreter` (starting at `initialEnv`), statements in
sequence, last value returned, first error aborting — the same last-value
loop as `eval_block` run on the root environment. -/
def evalProgram (stdin : String) (fuel : Nat) (prog : List Stmt) : ERes :=
  evalBlockS stdin fuel initialEnv prog

/-! ## Rendering numbers (`value_to_string`, `f64` `Display`)

Rust's `Display` for `f64` prints an integral double as a plain digit string
(no decimal point, `-` sign for negatives) and never uses scientific
notation.  The integral case is the only one both exactly representable in
`ℚ` and exercised by a claim, so it is model-complete; the non-integral case
is marked by a placeholder the theorems never rely on. -/

def digitChar : ℕ → Char
  | 0 => '0' | 1 => '1' | 2 => '2' | 3 => '3' | 4 => '4'
  | 5 => '5' | 6 => '6' | 7 => '7' | 8 => '8' | 9 => '9'
  | _ => '*'

/-- Base-10 digits of `n`, most significant first; the fuel (any bound on the
digit count, `n + 1` in `natToDigits`) keeps the recursion structural. -/
def natToDigitsAux : ℕ → ℕ → List Char
  | 0, _ => []
  | fuel + 1, n =>
      if n < 10 then [digitChar n]
      else natToDigitsAux fuel (n / 10) ++ [digitChar (n % 10)]

def natToDigits (n : ℕ) : List Char := natToDigitsAux (n + 1) n

/-- `f64` `Display` on an integral value (`8.0.to_string() == "8"`). -/
def ratRenderChars (q : ℚ) : List Char :=
  if q.den = 1 then
    if q.num < 0 then '-' :: natToDigits q.num.natAbs else natToDigits q.num.natAbs
  else "<non-integral rendering outside the rational model>".toList

mutual

/-- `runtime.rs` `fn value_to_string` (the `print` rendering). -/
def valueToString : Value → List Char
  | .number n => ratRenderChars n
  | .bool b => if b then "true".toList else "false".toList
  | .string s => s.toList
  | .null => "null".toList
  | .function _ => "<function>".toList
  | .typeV t => "<type ".toList ++ t.name.toList ++ ['>']
  | .list vals => '[' :: valueListToString vals ++ [']']
  | .instanceV _ => "<instance>".toList

/-- The `", "`-joined rendering of a list's elements. -/
def valueListToString : List Value → List Char
  | [] => []
  | [v] => valueToString v
  | v :: rest => valueToString v ++ ", ".toList ++ valueListToString rest

end

/-! ## The tokenizer (`core/src/lexer.rs`) -/

/-- `lexer.rs` `enum TokenKind` (keywords get a `T` suffix).  The final six
constructors (`lbracket`, `rbracket`, `colon`, `powT`, `nativeT`, `lambdaT`)
are referenced by `parser.rs` but are absent from the `lexer.rs` enum and are
never produced by `next_token`: the parser arms matching them are
unreachable from lexed input. -/
inductive TokenKind where
  | number (n : ℚ)
  | string (s : String)
  | identifier (s : String)
  | trueT | typeT | falseT | letT | fnT | returnT | ifT | elseT | whileT
  | forT | inT | importT
  | lparen | rparen | lbrace | rbrace | comma | semicolon | assignT
  | plus | minus | star | slash
  | eqeq | bangEq | lt | lte | gt | gte | bang | andT | orT | dot | dotdot
  | errorT (text : String)
  | eof
  | printT | constT | matchT | asT | pubT | modT | structT | enumT
  | breakT | continueT | yieldT
  | lbracket | rbracket | colon | powT | nativeT | lambdaT

/-- Constructor index of a `TokenKind`, used to compare the payload-free
constructors in `tkBeq`. -/
@[simp] def TokenKind.tidx : TokenKind → ℕ
  | .number _ => 0 | .string _ => 1 | .identifier _ => 2
  | .trueT => 3 | .typeT => 4 | .falseT => 5 | .letT => 6 | .fnT => 7
  | .returnT => 8 | .ifT => 9 | .elseT => 10 | .whileT => 11 | .forT => 12
  | .inT => 13 | .importT => 14 | .lparen => 15 | .rparen => 16
  | .lbrace => 17 | .rbrace => 18 | .comma => 19 | .semicolon => 20
  | .assignT => 21 | .plus => 22 | .minus => 23 | .star => 24 | .slash => 25
  | .eqeq => 26 | .bangEq => 27 | .lt => 28 | .lte => 29 | .gt => 30
  | .gte => 31 | .bang => 32 | .andT => 33 | .orT => 34 | .dot => 35
  | .dotdot => 36 | .errorT _ => 37 | .eof => 38 | .printT => 39
  | .constT => 40 | .matchT => 41 | .asT => 42 | .pubT => 43 | .modT => 44
  | .structT => 45 | .enumT => 46 | .breakT => 47 | .continueT => 48
  | .yieldT => 49 | .lbracket => 50 | .rbracket => 51 | .colon => 52
  | .powT => 53 | .nativeT => 54 | .lambdaT => 55

/-- `TokenKind`'s structural equality (Rust's derived `PartialEq`, which is
what the parser's `==` comparisons use): payload constructors compare their
payloads, the payload-free ones compare by constructor. -/
@[simp] def tkBeq : TokenKind → TokenKind → Bool
  | .number a, .number b => a == b
  | .string a, .string b => a == b
  | .identifier a, .identifier b => a == b
  | .errorT a, .errorT b => a == b
  | a, b => a.tidx == b.tidx

instance : BEq TokenKind := ⟨tkBeq⟩

/-- Unfolds `==` on `TokenKind` to `tkBeq` for the simp-based proofs. -/
@[simp] theorem tokenKind_beq_def (a b : TokenKind) : (a == b) = tkBeq a b := rfl

/-- `lexer.rs` `struct Token`. -/
structure Token where
  kind : TokenKind
  line : ℕ
  col : ℕ

/-- `lexer.rs` `struct LexError`. -/
structure LexError where
  message : String
  line : ℕ
  col : ℕ

/-- The lexer's cursor: remaining input (the source's `current` char is the
head), 1-based line, column = characters already consumed on this line.
`Lexer::new` yields `⟨src, 1, 0⟩`; the `peeked` cache of the source is a pure
optimisation with no observable effect and is dropped. -/
structure LexState where
  input : List Char
  line : ℕ
  col : ℕ

/-- `Lexer::advance`: consume one character, updating line/column. -/
def LexState.advance : LexState → LexState
  | ⟨[], l, c⟩ => ⟨[], l, c⟩
  | ⟨ch :: rest, l, c⟩ =>
      if ch = '\n' then ⟨rest, l + 1, 0⟩ else ⟨rest, l, c + 1⟩

def isAlphaChar (c : Char) : Bool :=
  (decide ('a' ≤ c) && decide (c ≤ 'z')) || (decide ('A' ≤ c) && decide (c ≤ 'Z'))

def isAlnumChar (c : Char) : Bool := isAlphaChar c || isDigitChar c

/-- The line-comment loop: consume up to (not including) the next newline. -/
def skipToNewline : LexState → LexState
  | ⟨[], l, c⟩ => ⟨[], l, c⟩
  | ⟨ch :: rest, l, c⟩ =>
      if ch = '\n' then ⟨ch :: rest, l, c⟩ else skipToNewline ⟨rest, l, c + 1⟩

/-- The digit/dot prefix collected by `Lexer::number`. -/
def takeNumChars : List Char → List Char
  | [] => []
  | c :: rest =>
      if isDigitChar c || c == '.' then c :: takeNumChars rest else []

/-- `Lexer::number`: collect the digit/dot prefix, `parse::<f64>` it; an
unparsable numeral (two dots) is a lex error carrying the start column. -/
def readNumber (st : LexState) : Except LexError Token × LexState :=
  let ds := takeNumChars st.input
  let st' : LexState := ⟨st.input.drop ds.length, st.line, st.col + ds.length⟩
  match parseDecimal ds with
  | some q => (.ok ⟨.number q, st'.line, st.col⟩, st')
  | none =>
      (.error ⟨"Invalid number literal '" ++ String.mk ds ++ "'", st'.line, st.col⟩, st')

/-- The identifier/keyword prefix collected by `Lexer::identifier`. -/
def takeIdentChars : List Char → List Char
  | [] => []
  | c :: rest =>
      if isAlnumChar c || c == '_' then c :: takeIdentChars rest else []

/-- The keyword table of `Lexer::identifier`. -/
def keywordKind (s : String) : TokenKind :=
  if s = "true" then .trueT else if s = "false" then .falseT
  else if s = "let" then .letT else if s = "fn" then .fnT
  else if s = "return" then .returnT else if s = "if" then .ifT
  else if s = "else" then .elseT else if s = "while" then .whileT
  else if s = "for" then .forT else if s = "in" then .inT
  else if s = "import" then .importT else if s = "print" then .printT
  else if s = "type" then .typeT else if s = "const" then .constT
  else if s = "match" then .matchT else if s = "as" then .asT
  else if s = "pub" then .pubT else if s = "mod" then .modT
  else if s = "struct" then .structT else if s = "enum" then .enumT
  else if s = "break" then .breakT else if s = "continue" then .continueT
  else if s = "yield" then .yieldT
  else .identifier s

/-- `Lexer::identifier`. -/
def readIdent (st : LexState) : Token × LexState :=
  let cs := takeIdentChars st.input
  (⟨keywordKind (String.mk cs), st.line, st.col⟩,
    ⟨st.input.drop cs.length, st.line, st.col + cs.length⟩)

/-- The body loop of `Lexer::string` (opening quote already consumed;
`startCol` is the quote's column).  Escapes `\n \r \t \" \\` translate, any
other escaped character is pushed verbatim; end of input is an unterminated
string error. -/
def readStringLoop (startCol : ℕ) :
    List Char → ℕ → ℕ → List Char → Except LexError Token × LexState
  | [], l, c, _ => (.error ⟨"Unterminated string literal", l, startCol⟩, ⟨[], l, c⟩)
  | '"' :: rest, l, c, acc =>
      (.ok ⟨.string (String.mk acc), l, startCol⟩, ⟨rest, l, c + 1⟩)
  | '\\' :: [], l, c, _ =>
      (.error ⟨"Unterminated string literal", l, startCol⟩, ⟨[], l, c + 1⟩)
  | '\\' :: e :: rest, l, c, acc =>
      let esc : Char :=
        if e = 'n' then '\n' else if e = 'r' then '\r' else if e = 't' then '\t' else e
      readStringLoop startCol rest (if e = '\n' then l + 1 else l)
        (if e = '\n' then 0 else c + 2) (acc ++ [esc])
  | ch :: rest, l, c, acc =>
      readStringLoop startCol rest (if ch = '\n' then l + 1 else l)
        (if ch = '\n' then 0 else c + 1) (acc ++ [ch])

/-- `Lexer::next_token`.  The fuel bounds only the whitespace/comment
skipping recursion; `input.length + 1` always suffices (each recursive call
consumes at least one character). -/
def nextTok : ℕ → LexState → Option (Except LexError Token × LexState)
  | 0, _ => none
  | fuel + 1, st =>
      match st.input with
      | [] => some (.ok ⟨.eof, st.line, st.col⟩, st)
      | c :: rest =>
          if c = ' ' || c = '\t' || c = '\r' || c = '\n' then nextTok fuel st.advance
          else if isDigitChar c then some (readNumber st)
          else if isAlphaChar c || c = '_' then
            some (.ok (readIdent st).1, (readIdent st).2)
          else if c = '"' then
            some (readStringLoop st.col rest st.line (st.col + 1) [])
          else if c = '(' then
            some (.ok ⟨.lparen, st.line, st.col + 1⟩, ⟨rest, st.line, st.col + 1⟩)
          else if c = ')' then
            some (.ok ⟨.rparen, st.line, st.col + 1⟩, ⟨rest, st.line, st.col + 1⟩)
          else if c = '{' then
            some (.ok ⟨.lbrace, st.line, st.col + 1⟩, ⟨rest, st.line, st.col + 1⟩)
          else if c = '}' then
            some (.ok ⟨.rbrace, st.line, st.col + 1⟩, ⟨rest, st.line, st.col + 1⟩)
          else if c = ',' then
            some (.ok ⟨.comma, st.line, st.col + 1⟩, ⟨rest, st.line, st.col + 1⟩)
          else if c = ';' then
            some (.ok ⟨.semicolon, st.line, st.col + 1⟩, ⟨rest, st.line, st.col + 1⟩)
          else if c = '=' then
            match rest with
            | '=' :: rest2 =>
                some (.ok ⟨.eqeq, st.line, st.col + 2⟩, ⟨rest2, st.line, st.col + 2⟩)
            | _ => some (.ok ⟨.assignT, st.line, st.col + 1⟩, ⟨rest, st.line, st.col + 1⟩)
          else if c = '!' then
            match rest with
            | '=' :: rest2 =>
                some (.ok ⟨.bangEq, st.line, st.col + 2⟩, ⟨rest2, st.line, st.col + 2⟩)
            | _ => some (.ok ⟨.bang, st.line, st.col + 1⟩, ⟨rest, st.line, st.col + 1⟩)
          else if c = '<' then
            match rest with
            | '=' :: rest2 =>
                some (.ok ⟨.lte, st.line, st.col + 2⟩, ⟨rest2, st.line, st.col + 2⟩)
            | _ => some (.ok ⟨.lt, st.line, st.col + 1⟩, ⟨rest, st.line, st.col + 1⟩)
          else if c = '>' then
            match rest with
            | '=' :: rest2 =>
                some (.ok ⟨.gte, st.line, st.col + 2⟩, ⟨rest2, st.line, st.col + 2⟩)
            | _ => some (.ok ⟨.gt, st.line, st.col + 1⟩, ⟨rest, st.line, st.col + 1⟩)
          else if c = '+' then
            some (.ok ⟨.plus, st.line, st.col + 1⟩, ⟨rest, st.line, st.col + 1⟩)
          else if c = '-' then
            some (.ok ⟨.minus, st.line, st.col + 1⟩, ⟨rest, st.line, st.col + 1⟩)
          else if c = '*' then
            some (.ok ⟨.star, st.line, st.col + 1⟩, ⟨rest, st.line, st.col + 1⟩)
          else if c = '/' then
            match rest with
            | '/' :: rest2 => nextTok fuel (skipToNewline ⟨rest2, st.line, st.col + 2⟩)
            | _ => some (.ok ⟨.slash, st.line, st.col + 1⟩, ⟨rest, st.line, st.col + 1⟩)
          else if c = '.' then
            match rest with
            | '.' :: rest2 =>
                some (.ok ⟨.dotdot, st.line, st.col + 2⟩, ⟨rest2, st.line, st.col + 2⟩)
            | _ => some (.ok ⟨.dot, st.line, st.col + 1⟩, ⟨rest, st.line, st.col + 1⟩)
          else if c = '&' then
            match rest with
            | '&' :: rest2 =>
                some (.ok ⟨.andT, st.line, st.col + 2⟩, ⟨rest2, st.line, st.col + 2⟩)
            | _ =>
                some (.error ⟨"Unexpected character '&' (did you mean '&&'?)",
                  st.line, st.col + 1⟩, ⟨rest, st.line, st.col + 1⟩)
          else if c = '|' then
            match rest with
            | '|' :: rest2 =>
                some (.ok ⟨.orT, st.line, st.col + 2⟩, ⟨rest2, st.line, st.col + 2⟩)
            | _ =>
                some (.error ⟨"Unexpected character '|' (did you mean '||'?)",
                  st.line, st.col + 1⟩, ⟨rest, st.line, st.col + 1⟩)
          else if c = '#' then nextTok fuel (skipToNewline st)
          else
            some (.error ⟨"Unexpected character '" ++ String.mk [c] ++ "'",
              st.line, st.col + 1⟩, ⟨rest, st.line, st.col + 1⟩)

/-! ## The parser (`core/src/parser.rs`) -/

/-- `f64` `Debug` rendering (`2.0`), used only inside diagnostic message
strings; like `ratRenderChars` it is faithful on integral values (the only
numbers the lexer can produce from claim inputs). -/
def ratDebugStr (q : ℚ) : String :=
  if q.den = 1 then
    (if q.num < 0 then "-" else "") ++ String.mk (natToDigits q.num.natAbs) ++ ".0"
  else "<non-integral>"

/-- `{:?}` on `TokenKind` (Rust derive `Debug`); string payloads are shown
unescaped — an approximation that only affects diagnostic text, which no
claim inspects beyond the error kind. -/
def tokenKindDebug : TokenKind → String
  | .number q => "Number(" ++ ratDebugStr q ++ ")"
  | .string s => "String(\"" ++ s ++ "\")"
  | .identifier s => "Identifier(\"" ++ s ++ "\")"
  | .trueT => "True" | .typeT => "Type" | .falseT => "False" | .letT => "Let"
  | .fnT => "Fn" | .returnT => "Return" | .ifT => "If" | .elseT => "Else"
  | .whileT => "While" | .forT => "For" | .inT => "In" | .importT => "Import"
  | .lparen => "LParen" | .rparen => "RParen" | .lbrace => "LBrace"
  | .rbrace => "RBrace" | .comma => "Comma" | .semicolon => "Semicolon"
  | .assignT => "Assign" | .plus => "Plus" | .minus => "Minus" | .star => "Star"
  | .slash => "Slash" | .eqeq => "EqEq" | .bangEq => "BangEq" | .lt => "Lt"
  | .lte => "Lte" | .gt => "Gt" | .gte => "Gte" | .bang => "Bang"
  | .andT => "And" | .orT => "Or" | .dot => "Dot" | .dotdot => "DotDot"
  | .errorT s => "Error(\"" ++ s ++ "\")" | .eof => "Eof"
  | .printT => "Print" | .constT => "Const" | .matchT => "Match" | .asT => "As"
  | .pubT => "Pub" | .modT => "Mod" | .structT => "Struct" | .enumT => "Enum"
  | .breakT => "Break" | .continueT => "Continue" | .yieldT => "Yield"
  | .lbracket => "LBracket" | .rbracket => "RBracket" | .colon => "Colon"
  | .powT => "Pow" | .nativeT => "Native" | .lambdaT => "Lambda"

/-- `{:?}` on a whole `Token`. -/
def tokenDebug (t : Token) : String :=
  "Token \x7b kind: " ++ tokenKindDebug t.kind ++ ", line: " ++ toString t.line
    ++ ", col: " ++ toString t.col ++ " \x7d"

/-- `parser.rs` `enum ParseErrorKind`. -/
inductive ParseErrorKind where
  | unexpectedToken | unexpectedEof | custom

/-- `parser.rs` `struct ParseError`. -/
structure ParseError where
  kind : ParseErrorKind
  message : String
  line : ℕ
  col : ℕ

/-- `parser.rs` `struct Parser`: the lexer plus the single lookahead token. -/
structure PState where
  lex : LexState
  curr : Token

/-- `next_token` with the always-sufficient fuel `input.length + 1` (every
skipping step consumes at least one character, so the recursion depth is at
most the input length; the `none` fallback is unreachable). -/
def nextTokenFull (st : LexState) : Except LexError Token × LexState :=
  match nextTok (st.input.length + 1) st with
  | some r => r
  | none => (.ok ⟨.eof, st.line, st.col⟩, st)

/-- `Parser::advance`: pull the next token, turning a lex error into a
stored `Error` token at the error's position. -/
def PState.advance (p : PState) : PState :=
  match nextTokenFull p.lex with
  | (.ok t, lex') => ⟨lex', t⟩
  | (.error e, lex') => ⟨lex', ⟨.errorT e.message, e.line, e.col⟩⟩

/-- `Parser::new`. -/
def newParser (src : List Char) : PState :=
  match nextTokenFull ⟨src, 1, 0⟩ with
  | (.ok t, lex') => ⟨lex', t⟩
  | (.error e, lex') => ⟨lex', ⟨.errorT e.message, e.line, e.col⟩⟩

/-- `Parser::expect`. -/
def expectTok (kind : TokenKind) (p : PState) : Except ParseError PState :=
  if p.curr.kind == kind then .ok p.advance
  else
    .error ⟨.unexpectedToken,
      "Expected " ++ tokenKindDebug kind ++ ", found " ++ tokenKindDebug p.curr.kind,
      p.curr.line, p.curr.col⟩

/-- `Parser::unexpected` (the French-context diagnostic builder). -/
def unexpectedErr (p : PState) (context expected : String) : ParseError :=
  ⟨.unexpectedToken,
    "Erreur de syntaxe " ++ context ++ " : attendu " ++ expected ++ ", trouvé "
      ++ tokenKindDebug p.curr.kind ++ " à la ligne " ++ toString p.curr.line
      ++ ", colonne " ++ toString p.curr.col ++ ".",
    p.curr.line, p.curr.col⟩

/-- Parser results: `none` is fuel exhaustion, errors abort without a state
(the Rust `?` operator returns `Err(ParseError)` alone). -/
abbrev PRes (α : Type) := Option (Except ParseError (α × PState))

/-- The parser's `?` operator. -/
def pbind {α β : Type} (x : PRes α) (f : α → PState → PRes β) : PRes β :=
  match x with
  | none => none
  | some (.error e) => some (.error e)
  | some (.ok (a, st)) => f a st

mutual

/-- `Parser::parse`: statements until `Eof`. -/
def parseProgramLoop : ℕ → PState → List Stmt → PRes (List Stmt)
  | 0, _, _ => none
  | fuel + 1, p, acc =>
      if p.curr.kind == .eof then some (.ok (acc.reverse, p))
      else pbind (parseStmtF fuel p) fun s p1 => parseProgramLoop fuel p1 (s :: acc)

/-- `Parser::parse_stmt`: dispatch on the leading keyword, otherwise an
expression statement with an optional trailing semicolon. -/
def parseStmtF : ℕ → PState → PRes Stmt
  | 0, _ => none
  | fuel + 1, p =>
      match p.curr.kind with
      | .typeT => parseTypeF fuel p
      | .letT => parseLetF fuel p
      | .fnT => parseFunctionF fuel p
      | .constT => parseConstF fuel p
      | .nativeT => parseNativeFunctionF fuel p
      | .returnT => parseReturnF fuel p
      | .ifT => parseIfF fuel p
      | .whileT => parseWhileF fuel p
      | .forT => parseForF fuel p
      | .importT => parseImportF fuel p
      | .breakT => parseBreakF fuel p
      | .continueT => parseContinueF fuel p
      | .printT => parsePrintF fuel p
      | .lbrace => parseBlockStmtF fuel p
      | .matchT => parseMatchF fuel p
      | .enumT => parseEnumF fuel p
      | _ =>
          pbind (parseExprF fuel p) fun e p1 =>
            let p2 := if p1.curr.kind == .semicolon then p1.advance else p1
            some (.ok (.exprS e, p2))

/-- `Parser::parse_let` (the optional `:` type-annotation placeholder is
consumed and discarded, as in the source). -/
def parseLetF : ℕ → PState → PRes Stmt
  | 0, _ => none
  | fuel + 1, p =>
      match expectTok .letT p with
      | .error e => some (.error e)
      | .ok p1 =>
          match p1.curr.kind with
          | .identifier name =>
              let p2 := p1.advance
              let p3 := if p2.curr.kind == .colon then p2.advance else p2
              match expectTok .assignT p3 with
              | .error e => some (.error e)
              | .ok p4 =>
                  pbind (parseExprF fuel p4) fun e p5 =>
                    let p6 := if p5.curr.kind == .semicolon then p5.advance else p5
                    some (.ok (.letS name e, p6))
          | _ =>
              some (.error (unexpectedErr p1 "dans la déclaration de variable" "un identifiant"))

/-- The parameter-list loop shared textually by `parse_function` and
`parse_native_function` (`ctx` is the respective French error context). -/
def fnParamsLoop (ctx : String) : ℕ → PState → List String → PRes (List String)
  | 0, _, _ => none
  | fuel + 1, p, acc =>
      if p.curr.kind == .rparen then some (.ok (acc.reverse, p))
      else
        match p.curr.kind with
        | .identifier param =>
            let p1 := p.advance
            if p1.curr.kind == .comma then fnParamsLoop ctx fuel p1.advance (param :: acc)
            else if !(p1.curr.kind == .rparen) then
              some (.error (unexpectedErr p1 ctx "une virgule ou une parenthèse fermante"))
            else fnParamsLoop ctx fuel p1 (param :: acc)
        | _ => some (.error (unexpectedErr p ctx "un identifiant"))

/-- The statements-until-`}` loop shared by function bodies, blocks and
lambda bodies. -/
def stmtsUntilRBrace : ℕ → PState → List Stmt → PRes (List Stmt)
  | 0, _, _ => none
  | fuel + 1, p, acc =>
      if !(p.curr.kind == .rbrace) && !(p.curr.kind == .eof) then
        pbind (parseStmtF fuel p) fun s p1 => stmtsUntilRBrace fuel p1 (s :: acc)
      else some (.ok (acc.reverse, p))

/-- `Parser::parse_function`, including the 64-line body lint (`start_line`
is the line of the token after `{`, `end_line` the line of the token after
`}`, exactly as the source reads `self.curr.line`). -/
def parseFunctionF : ℕ → PState → PRes Stmt
  | 0, _ => none
  | fuel + 1, p =>
      match expectTok .fnT p with
      | .error e => some (.error e)
      | .ok p1 =>
          match p1.curr.kind with
          | .identifier name =>
              let p2 := p1.advance
              match expectTok .lparen p2 with
              | .error e => some (.error e)
              | .ok p3 =>
                  pbind (fnParamsLoop "dans la liste des paramètres" fuel p3 []) fun params p4 =>
                  match expectTok .rparen p4 with
                  | .error e => some (.error e)
                  | .ok p5 =>
                      let p6 := if p5.curr.kind == .colon then p5.advance else p5
                      match expectTok .lbrace p6 with
                      | .error e => some (.error e)
                      | .ok p7 =>
                          let startLine := p7.curr.line
                          pbind (stmtsUntilRBrace fuel p7 []) fun body p8 =>
                          match expectTok .rbrace p8 with
                          | .error e => some (.error e)
                          | .ok p9 =>
                              let endLine := p9.curr.line
                              if endLine - startLine > 64 then
                                some (.error ⟨.custom,
                                  "Function '" ++ name ++ "' exceeds 64 lines ("
                                    ++ toString (endLine - startLine) ++ " lines)",
                                  startLine, p9.curr.col⟩)
                              else some (.ok (.funcS name params body, p9))
          | _ =>
              some (.error ⟨.unexpectedToken, "Expected function name",
                p1.curr.line, p1.curr.col⟩)

/-- `Parser::parse_return`. -/
def parseReturnF : ℕ → PState → PRes Stmt
  | 0, _ => none
  | fuel + 1, p =>
      match expectTok .returnT p with
      | .error e => some (.error e)
      | .ok p1 =>
          if !(p1.curr.kind == .semicolon) then
            pbind (parseExprF fuel p1) fun e p2 =>
              let p3 := if p2.curr.kind == .semicolon then p2.advance else p2
              some (.ok (.returnS (some e), p3))
          else
            let p2 := if p1.curr.kind == .semicolon then p1.advance else p1
            some (.ok (.returnS none, p2))

/-- `Parser::parse_if` (an `else if` recursively parses another `if` as the
sole statement of the else branch). -/
def parseIfF : ℕ → PState → PRes Stmt
  | 0, _ => none
  | fuel + 1, p =>
      match expectTok .ifT p with
      | .error e => some (.error e)
      | .ok p1 =>
          pbind (parseExprF fuel p1) fun cond p2 =>
          pbind (parseBlockF fuel p2) fun thenBranch p3 =>
            if p3.curr.kind == .elseT then
              let p4 := p3.advance
              if p4.curr.kind == .ifT then
                pbind (parseIfF fuel p4) fun inner p5 =>
                  some (.ok (.ifS cond thenBranch (some [inner]), p5))
              else
                pbind (parseBlockF fuel p4) fun elseBranch p5 =>
                  some (.ok (.ifS cond thenBranch (some elseBranch), p5))
            else some (.ok (.ifS cond thenBranch none, p3))

/-- `Parser::parse_while`. -/
def parseWhileF : ℕ → PState → PRes Stmt
  | 0, _ => none
  | fuel + 1, p =>
      match expectTok .whileT p with
      | .error e => some (.error e)
      | .ok p1 =>
          pbind (parseExprF fuel p1) fun cond p2 =>
          pbind (parseBlockF fuel p2) fun body p3 =>
            some (.ok (.whileS cond body, p3))

/-- `Parser::parse_for`. -/
def parseForF : ℕ → PState → PRes Stmt
  | 0, _ => none
  | fuel + 1, p =>
      match expectTok .forT p with
      | .error e => some (.error e)
      | .ok p1 =>
          match p1.curr.kind with
          | .identifier var =>
              let p2 := p1.advance
              match expectTok .inT p2 with
              | .error e => some (.error e)
              | .ok p3 =>
                  pbind (parseExprF fuel p3) fun startE p4 =>
                  match expectTok .dotdot p4 with
                  | .error e => some (.error e)
                  | .ok p5 =>
                      pbind (parseExprF fuel p5) fun endE p6 =>
                      pbind (parseBlockF fuel p6) fun body p7 =>
                        some (.ok (.forS var startE endE body, p7))
          | _ =>
              some (.error ⟨.unexpectedToken, "Token inattendu : " ++ tokenDebug p1.curr,
                p1.curr.line, p1.curr.col⟩)

/-- `Parser::parse_import`. -/
def parseImportF : ℕ → PState → PRes Stmt
  | 0, _ => none
  | _ + 1, p =>
      match expectTok .importT p with
      | .error e => some (.error e)
      | .ok p1 =>
          match p1.curr.kind with
          | .string path =>
              let p2 := p1.advance
              let p3 := if p2.curr.kind == .semicolon then p2.advance else p2
              some (.ok (.importS path, p3))
          | _ =>
              some (.error ⟨.unexpectedToken, "Token inattendu : " ++ tokenDebug p1.curr,
                p1.curr.line, p1.curr.col⟩)

/-- `Parser::parse_break`. -/
def parseBreakF : ℕ → PState → PRes Stmt
  | 0, _ => none
  | _ + 1, p =>
      match expectTok .breakT p with
      | .error e => some (.error e)
      | .ok p1 =>
          let p2 := if p1.curr.kind == .semicolon then p1.advance else p1
          some (.ok (.breakS, p2))

/-- `Parser::parse_continue`. -/
def parseContinueF : ℕ → PState → PRes Stmt
  | 0, _ => none
  | _ + 1, p =>
      match expectTok .continueT p with
      | .error e => some (.error e)
      | .ok p1 =>
          let p2 := if p1.curr.kind == .semicolon then p1.advance else p1
          some (.ok (.continueS, p2))

/-- `Parser::parse_print` (always a `PrintArgs`, comma-separated). -/
def parsePrintF : ℕ → PState → PRes Stmt
  | 0, _ => none
  | fuel + 1, p =>
      match expectTok .printT p with
      | .error e => some (.error e)
      | .ok p1 =>
          pbind (parseExprF fuel p1) fun first p2 =>
          pbind (commaExprLoop fuel p2 [first]) fun args p3 =>
            let p4 := if p3.curr.kind == .semicolon then p3.advance else p3
            some (.ok (.printArgs args, p4))

/-- `Parser::parse_block_stmt`. -/
def parseBlockStmtF : ℕ → PState → PRes Stmt
  | 0, _ => none
  | fuel + 1, p =>
      pbind (parseBlockF fuel p) fun stmts p1 => some (.ok (.blockS stmts, p1))

/-- `Parser::parse_block`: `{ stmt* }`. -/
def parseBlockF : ℕ → PState → PRes (List Stmt)
  | 0, _ => none
  | fuel + 1, p =>
      match expectTok .lbrace p with
      | .error e => some (.error e)
      | .ok p1 =>
          pbind (stmtsUntilRBrace fuel p1 []) fun stmts p2 =>
          match expectTok .rbrace p2 with
          | .error e => some (.error e)
          | .ok p3 => some (.ok (stmts, p3))

/-- `Parser::parse_type`. -/
def parseTypeF : ℕ → PState → PRes Stmt
  | 0, _ => none
  | fuel + 1, p =>
      match expectTok .typeT p with
      | .error e => some (.error e)
      | .ok p1 =>
          match p1.curr.kind with
          | .identifier name =>
              let p2 := p1.advance
              match expectTok .lbrace p2 with
              | .error e => some (.error e)
              | .ok p3 =>
                  pbind (typeBodyLoop fuel p3 [] []) fun fm p4 =>
                  match expectTok .rbrace p4 with
                  | .error e => some (.error e)
                  | .ok p5 => some (.ok (.typeS name fm.1 fm.2, p5))
          | _ =>
              some (.error ⟨.unexpectedToken, "Expected type name",
                p1.curr.line, p1.curr.col⟩)

/-- The field/method loop of `parse_type`. -/
def typeBodyLoop :
    ℕ → PState → List (String × Expr) → List Stmt → PRes (List (String × Expr) × List Stmt)
  | 0, _, _, _ => none
  | fuel + 1, p, fields, methods =>
      if !(p.curr.kind == .rbrace) && !(p.curr.kind == .eof) then
        if p.curr.kind == .fnT then
          pbind (parseFunctionF fuel p) fun m p1 => typeBodyLoop fuel p1 fields (m :: methods)
        else
          match p.curr.kind with
          | .identifier fieldName =>
              let p1 := p.advance
              match expectTok .colon p1 with
              | .error e => some (.error e)
              | .ok p2 =>
                  pbind (parseExprF fuel p2) fun e p3 =>
                    let p4 := if p3.curr.kind == .comma then p3.advance else p3
                    typeBodyLoop fuel p4 ((fieldName, e) :: fields) methods
          | _ =>
              some (.error ⟨.unexpectedToken,
                "Unexpected token in type body: " ++ tokenKindDebug p.curr.kind,
                p.curr.line, p.curr.col⟩)
      else some (.ok ((fields.reverse, methods.reverse), p))

/-- `Parser::parse_const`. -/
def parseConstF : ℕ → PState → PRes Stmt
  | 0, _ => none
  | fuel + 1, p =>
      match expectTok .constT p with
      | .error e => some (.error e)
      | .ok p1 =>
          match p1.curr.kind with
          | .identifier name =>
              let p2 := p1.advance
              match expectTok .assignT p2 with
              | .error e => some (.error e)
              | .ok p3 =>
                  pbind (parseExprF fuel p3) fun e p4 =>
                    let p5 := if p4.curr.kind == .semicolon then p4.advance else p4
                    some (.ok (.constS name e, p5))
          | _ =>
              some (.error (unexpectedErr p1 "dans la déclaration de constante" "un identifiant"))

/-- `Parser::parse_native_function`. -/
def parseNativeFunctionF : ℕ → PState → PRes Stmt
  | 0, _ => none
  | fuel + 1, p =>
      match expectTok .nativeT p with
      | .error e => some (.error e)
      | .ok p0 =>
      match expectTok .fnT p0 with
      | .error e => some (.error e)
      | .ok p1 =>
          match p1.curr.kind with
          | .identifier name =>
              let p2 := p1.advance
              match expectTok .lparen p2 with
              | .error e => some (.error e)
              | .ok p3 =>
                  pbind (fnParamsLoop "dans la liste des paramètres de la fonction native"
                      fuel p3 []) fun params p4 =>
                  match expectTok .rparen p4 with
                  | .error e => some (.error e)
                  | .ok p5 =>
                      let p6 := if p5.curr.kind == .colon then p5.advance else p5
                      match expectTok .lbrace p6 with
                      | .error e => some (.error e)
                      | .ok p7 =>
                          let startLine := p7.curr.line
                          pbind (stmtsUntilRBrace fuel p7 []) fun body p8 =>
                          match expectTok .rbrace p8 with
                          | .error e => some (.error e)
                          | .ok p9 =>
                              let endLine := p9.curr.line
                              if endLine - startLine > 64 then
                                some (.error ⟨.custom,
                                  "Native function '" ++ name ++ "' exceeds 64 lines ("
                                    ++ toString (endLine - startLine) ++ " lines)",
                                  startLine, p9.curr.col⟩)
                              else some (.ok (.nativeFunction name params body, p9))
          | _ =>
              some (.error ⟨.unexpectedToken, "Expected native function name",
                p1.curr.line, p1.curr.col⟩)

/-- `Parser::parse_match` (unimplemented in the source: a custom error). -/
def parseMatchF : ℕ → PState → PRes Stmt
  | 0, _ => none
  | _ + 1, p =>
      some (.error ⟨.custom, "parse_match n'est pas encore implémenté",
        p.curr.line, p.curr.col⟩)

/-- `Parser::parse_enum` (unimplemented in the source: a custom error). -/
def parseEnumF : ℕ → PState → PRes Stmt
  | 0, _ => none
  | _ + 1, p =>
      some (.error ⟨.custom, "parse_enum n'est pas encore implémenté",
        p.curr.line, p.curr.col⟩)

/-- `Parser::parse_expr` (delegates to assignment). -/
def parseExprF : ℕ → PState → PRes Expr
  | 0, _ => none
  | fuel + 1, p => parseAssignmentF fuel p

/-- `Parser::parse_assignment`: right-associative; only a bare variable may
be the target, anything else is the custom "Cible d'affectation invalide"
error. -/
def parseAssignmentF : ℕ → PState → PRes Expr
  | 0, _ => none
  | fuel + 1, p =>
      pbind (parseLogicOrF fuel p) fun e p1 =>
        if p1.curr.kind == .assignT then
          pbind (parseAssignmentF fuel p1.advance) fun value p2 =>
            match e with
            | .var name => some (.ok (.assign name value, p2))
            | _ =>
                some (.error ⟨.custom, "Cible d'affectation invalide",
                  p2.curr.line, p2.curr.col⟩)
        else some (.ok (e, p1))

/-- `Parser::parse_logic_or`. -/
def parseLogicOrF : ℕ → PState → PRes Expr
  | 0, _ => none
  | fuel + 1, p => pbind (parseLogicAndF fuel p) fun e p1 => logicOrLoop fuel e p1

def logicOrLoop : ℕ → Expr → PState → PRes Expr
  | 0, _, _ => none
  | fuel + 1, e, p =>
      if p.curr.kind == .orT then
        pbind (parseLogicAndF fuel p.advance) fun r p1 =>
          logicOrLoop fuel (.binary e .or r) p1
      else some (.ok (e, p))

/-- `Parser::parse_logic_and`. -/
def parseLogicAndF : ℕ → PState → PRes Expr
  | 0, _ => none
  | fuel + 1, p => pbind (parseEqualityF fuel p) fun e p1 => logicAndLoop fuel e p1

def logicAndLoop : ℕ → Expr → PState → PRes Expr
  | 0, _, _ => none
  | fuel + 1, e, p =>
      if p.curr.kind == .andT then
        pbind (parseEqualityF fuel p.advance) fun r p1 =>
          logicAndLoop fuel (.binary e .and r) p1
      else some (.ok (e, p))

/-- `Parser::parse_equality` (`==`, `!=`). -/
def parseEqualityF : ℕ → PState → PRes Expr
  | 0, _ => none
  | fuel + 1, p => pbind (parseComparisonF fuel p) fun e p1 => equalityLoop fuel e p1

def equalityLoop : ℕ → Expr → PState → PRes Expr
  | 0, _, _ => none
  | fuel + 1, e, p =>
      if p.curr.kind == .eqeq then
        pbind (parseComparisonF fuel p.advance) fun r p1 =>
          equalityLoop fuel (.binary e .eq r) p1
      else if p.curr.kind == .bangEq then
        pbind (parseComparisonF fuel p.advance) fun r p1 =>
          equalityLoop fuel (.binary e .neq r) p1
      else some (.ok (e, p))

/-- `Parser::parse_comparison` (`<`, `<=`, `>`, `>=`). -/
def parseComparisonF : ℕ → PState → PRes Expr
  | 0, _ => none
  | fuel + 1, p => pbind (parseTermF fuel p) fun e p1 => comparisonLoop fuel e p1

def comparisonLoop : ℕ → Expr → PState → PRes Expr
  | 0, _, _ => none
  | fuel + 1, e, p =>
      if p.curr.kind == .lt then
        pbind (parseTermF fuel p.advance) fun r p1 =>
          comparisonLoop fuel (.binary e .lt r) p1
      else if p.curr.kind == .lte then
        pbind (parseTermF fuel p.advance) fun r p1 =>
          comparisonLoop fuel (.binary e .lte r) p1
      else if p.curr.kind == .gt then
        pbind (parseTermF fuel p.advance) fun r p1 =>
          comparisonLoop fuel (.binary e .gt r) p1
      else if p.curr.kind == .gte then
        pbind (parseTermF fuel p.advance) fun r p1 =>
          comparisonLoop fuel (.binary e .gte r) p1
      else some (.ok (e, p))

/-- `Parser::parse_term` (`+`, `-`, left-associative). -/
def parseTermF : ℕ → PState → PRes Expr
  | 0, _ => none
  | fuel + 1, p => pbind (parseFactorF fuel p) fun e p1 => termLoop fuel e p1

def termLoop : ℕ → Expr → PState → PRes Expr
  | 0, _, _ => none
  | fuel + 1, e, p =>
      if p.curr.kind == .plus then
        pbind (parseFactorF fuel p.advance) fun r p1 =>
          termLoop fuel (.binary e .add r) p1
      else if p.curr.kind == .minus then
        pbind (parseFactorF fuel p.advance) fun r p1 =>
          termLoop fuel (.binary e .sub r) p1
      else some (.ok (e, p))

/-- `Parser::parse_factor` (`*`, `/`, left-associative — binds tighter than
`+`/`-` because `parse_term` descends through it). -/
def parseFactorF : ℕ → PState → PRes Expr
  | 0, _ => none
  | fuel + 1, p => pbind (parsePowerF fuel p) fun e p1 => factorLoop fuel e p1

def factorLoop : ℕ → Expr → PState → PRes Expr
  | 0, _, _ => none
  | fuel + 1, e, p =>
      if p.curr.kind == .star then
        pbind (parsePowerF fuel p.advance) fun r p1 =>
          factorLoop fuel (.binary e .mul r) p1
      else if p.curr.kind == .slash then
        pbind (parsePowerF fuel p.advance) fun r p1 =>
          factorLoop fuel (.binary e .div r) p1
      else some (.ok (e, p))

/-- `Parser::parse_power` (the `Pow` token is never lexed, so the loop arm is
unreachable from lexed input). -/
def parsePowerF : ℕ → PState → PRes Expr
  | 0, _ => none
  | fuel + 1, p => pbind (parseUnaryF fuel p) fun e p1 => powerLoop fuel e p1

def powerLoop : ℕ → Expr → PState → PRes Expr
  | 0, _, _ => none
  | fuel + 1, e, p =>
      if p.curr.kind == .powT then
        pbind (parseUnaryF fuel p.advance) fun r p1 =>
          powerLoop fuel (.binary e .pow r) p1
      else some (.ok (e, p))

/-- `Parser::parse_unary` (`-`, `!`, right-recursive). -/
def parseUnaryF : ℕ → PState → PRes Expr
  | 0, _ => none
  | fuel + 1, p =>
      if p.curr.kind == .minus then
        pbind (parseUnaryF fuel p.advance) fun e p1 => some (.ok (.unary .neg e, p1))
      else if p.curr.kind == .bang then
        pbind (parseUnaryF fuel p.advance) fun e p1 => some (.ok (.unary .not e, p1))
      else parseCallF fuel p

/-- `Parser::parse_call`: a primary followed by a postfix chain. -/
def parseCallF : ℕ → PState → PRes Expr
  | 0, _ => none
  | fuel + 1, p => pbind (parsePrimaryF fuel p) fun e p1 => callLoop fuel e p1

/-- The postfix chain loop: call `(args)`, field access `.name`, indexing
`[e]`.  A `.` followed by a non-identifier is silently skipped (the source's
else branch holds only a `// erreur` comment and neither errors nor breaks). -/
def callLoop : ℕ → Expr → PState → PRes Expr
  | 0, _, _ => none
  | fuel + 1, e, p =>
      if p.curr.kind == .lparen then
        pbind (callArgsF fuel p.advance) fun args p2 =>
          match expectTok .rparen p2 with
          | .error err => some (.error err)
          | .ok p3 => callLoop fuel (.call e args) p3
      else if p.curr.kind == .dot then
        let p1 := p.advance
        match p1.curr.kind with
        | .identifier field => callLoop fuel (.fieldAccess e field) p1.advance
        | _ => callLoop fuel e p1
      else if p.curr.kind == .lbracket then
        pbind (parseExprF fuel p.advance) fun idx p2 =>
          match expectTok .rbracket p2 with
          | .error err => some (.error err)
          | .ok p3 => callLoop fuel (.index e idx) p3
      else some (.ok (e, p))

/-- The argument list after `(` (empty if `)` follows immediately). -/
def callArgsF : ℕ → PState → PRes (List Expr)
  | 0, _ => none
  | fuel + 1, p =>
      if p.curr.kind == .rparen then some (.ok ([], p))
      else pbind (parseExprF fuel p) fun a p1 => commaExprLoop fuel p1 [a]

/-- The `while comma: parse another expression` loop shared by argument
lists, list/tuple literals and `print` arguments. -/
def commaExprLoop : ℕ → PState → List Expr → PRes (List Expr)
  | 0, _, _ => none
  | fuel + 1, p, acc =>
      if p.curr.kind == .comma then
        pbind (parseExprF fuel p.advance) fun a p1 => commaExprLoop fuel p1 (a :: acc)
      else some (.ok (acc.reverse, p))

/-- The `key: value` entry loop of the dict literal. -/
def dictEntriesLoop : ℕ → PState → List (Expr × Expr) → PRes (List (Expr × Expr))
  | 0, _, _ => none
  | fuel + 1, p, acc =>
      pbind (parseExprF fuel p) fun key p1 =>
        match expectTok .colon p1 with
        | .error e => some (.error e)
        | .ok p2 =>
            pbind (parseExprF fuel p2) fun value p3 =>
              if p3.curr.kind == .comma then dictEntriesLoop fuel p3.advance ((key, value) :: acc)
              else some (.ok (((key, value) :: acc).reverse, p3))

/-- The lambda parameter loop (its diagnostics differ from the `fn` ones in
the source, hence a separate loop; the `Lambda` token is never lexed). -/
def lambdaParamsLoop : ℕ → PState → List String → PRes (List String)
  | 0, _, _ => none
  | fuel + 1, p, acc =>
      if p.curr.kind == .rparen then some (.ok (acc.reverse, p))
      else
        match p.curr.kind with
        | .identifier param =>
            let p1 := p.advance
            if p1.curr.kind == .comma then lambdaParamsLoop fuel p1.advance (param :: acc)
            else if !(p1.curr.kind == .rparen) then
              some (.error ⟨.unexpectedToken, "Token inattendu : " ++ tokenDebug p1.curr,
                p1.curr.line, p1.curr.col⟩)
            else lambdaParamsLoop fuel p1 (param :: acc)
        | _ =>
            some (.error ⟨.unexpectedToken, "Token inattendu : " ++ tokenDebug p.curr,
              p.curr.line, p.curr.col⟩)

/-- `Parser::parse_primary`. -/
def parsePrimaryF : ℕ → PState → PRes Expr
  | 0, _ => none
  | fuel + 1, p =>
      match p.curr.kind with
      | .number n => some (.ok (.number n, p.advance))
      | .string s => some (.ok (.string s, p.advance))
      | .trueT => some (.ok (.bool true, p.advance))
      | .falseT => some (.ok (.bool false, p.advance))
      | .identifier name => some (.ok (.var name, p.advance))
      | .lbracket =>
          let p1 := p.advance
          pbind
            (if p1.curr.kind == .rbracket then some (.ok (([] : List Expr), p1))
             else pbind (parseExprF fuel p1) fun a p2 => commaExprLoop fuel p2 [a])
            fun elems p2 =>
              match expectTok .rbracket p2 with
              | .error e => some (.error e)
              | .ok p3 => some (.ok (.list elems, p3))
      | .lbrace =>
          let p1 := p.advance
          pbind
            (if p1.curr.kind == .rbrace then some (.ok (([] : List (Expr × Expr)), p1))
             else dictEntriesLoop fuel p1 [])
            fun entries p2 =>
              match expectTok .rbrace p2 with
              | .error e => some (.error e)
              | .ok p3 => some (.ok (.dict entries, p3))
      | .lparen =>
          let p1 := p.advance
          pbind (parseExprF fuel p1) fun e p2 =>
            if p2.curr.kind == .comma then
              pbind (commaExprLoop fuel p2 [e]) fun elems p3 =>
                match expectTok .rparen p3 with
                | .error err => some (.error err)
                | .ok p4 => some (.ok (.tuple elems, p4))
            else
              match expectTok .rparen p2 with
              | .error err => some (.error err)
              | .ok p3 => some (.ok (e, p3))
      | .lambdaT =>
          let p1 := p.advance
          match expectTok .lparen p1 with
          | .error e => some (.error e)
          | .ok p2 =>
              pbind (lambdaParamsLoop fuel p2 []) fun params p3 =>
              match expectTok .rparen p3 with
              | .error e => some (.error e)
              | .ok p4 =>
                  if p4.curr.kind == .lbrace then
                    pbind (stmtsUntilRBrace fuel p4.advance []) fun stmts p5 =>
                    match expectTok .rbrace p5 with
                    | .error e => some (.error e)
                    | .ok p6 => some (.ok (.lambda params [.blockS stmts], p6))
                  else
                    pbind (parseStmtF fuel p4) fun s p5 =>
                      some (.ok (.lambda params [s], p5))
      | _ =>
          some (.error ⟨.unexpectedToken, "Token inattendu : " ++ tokenDebug p.curr,
            p.curr.line, p.curr.col⟩)

end

/-- `lib.rs` `parse_source`. -/
def parseSource (fuel : ℕ) (src : List Char) : Option (Except ParseError (List Stmt)) :=
  match parseProgramLoop fuel (newParser src) [] with
  | none => none
  | some (.error e) => some (.error e)
  | some (.ok (stmts, _)) => some (.ok stmts)

/-- `{:?}` on `ParseError` (Rust derive `Debug`), used by `eval_source` to
wrap a parse error into a `RuntimeError::Message`. -/
def parseErrorDebug (e : ParseError) : String :=
  "ParseError \x7b kind: "
    ++ (match e.kind with
        | .unexpectedToken => "UnexpectedToken"
        | .unexpectedEof => "UnexpectedEof"
        | .custom => "Custom")
    ++ ", message: \"" ++ e.message ++ "\", line: " ++ toString e.line
    ++ ", col: " ++ toString e.col ++ " \x7d"

/-- `lib.rs` `eval_source`: parse, then run a fresh interpreter over the
statements, returning the last value (a parse error becomes a
`RuntimeError::Message` holding the error's `Debug` text). -/
def evalSource (stdin : String) (fuel : ℕ) (src : List Char) :
    Option (Except RuntimeError Value) :=
  match parseSource fuel src with
  | none => none
  | some (.error e) => some (.error (.Message (parseErrorDebug e)))
  | some (.ok stmts) =>
      match evalProgram stdin fuel stmts with
      | none => none
      | some (r, _) => some r


/-! ## Supporting lemmas: decimal digit strings round trip through the lexer

These lemmas back the C6 round-trip theorem: `natToDigits` renders only
digit characters, and lexing such a rendering recovers exactly the rendered
natural number. -/

theorem digitChar_isDigit {k : ℕ} (hk : k < 10) : isDigitChar (digitChar k) = true := by
  interval_cases k <;> decide

theorem charToDigit_digitChar {k : ℕ} (hk : k < 10) : charToDigit (digitChar k) = k := by
  interval_cases k <;> decide

theorem natToDigitsAux_digits :
    ∀ fuel n c, c ∈ natToDigitsAux fuel n → isDigitChar c = true := by
  intro fuel
  induction fuel with
  | zero => intro n c hc; simp [natToDigitsAux] at hc
  | succ fuel ih =>
      intro n c hc
      rw [natToDigitsAux] at hc
      by_cases h : n < 10
      · simp [h] at hc
        subst hc
        exact digitChar_isDigit h
      · simp [h] at hc
        rcases hc with hc | hc
        · exact ih _ _ hc
        · subst hc
          exact digitChar_isDigit (Nat.mod_lt _ (by norm_num))

theorem natToDigits_digits {n : ℕ} {c : Char} (hc : c ∈ natToDigits n) :
    isDigitChar c = true := natToDigitsAux_digits _ _ _ hc

theorem digitsValAux_append (xs : List Char) (c : Char) :
    ∀ acc, digitsValAux (xs ++ [c]) acc = 10 * digitsValAux xs acc + charToDigit c := by
  induction xs with
  | nil => intro acc; rfl
  | cons x xs ih =>
      intro acc
      simp only [List.cons_append, digitsValAux]
      exact ih _

theorem natToDigitsAux_val :
    ∀ fuel n, n < 10 ^ fuel → digitsValAux (natToDigitsAux fuel n) 0 = n := by
  intro fuel
  induction fuel with
  | zero => intro n hn; interval_cases n; rfl
  | succ fuel ih =>
      intro n hn
      rw [natToDigitsAux]
      by_cases h : n < 10
      · simp [h, digitsValAux, charToDigit_digitChar h]
      · simp only [h, if_false]
        rw [digitsValAux_append, ih (n / 10) ?_, charToDigit_digitChar (Nat.mod_lt _ (by norm_num))]
        · exact Nat.div_add_mod n 10
        · rw [Nat.div_lt_iff_lt_mul (by norm_num)]
          calc n < 10 ^ (fuel + 1) := hn
            _ = 10 ^ fuel * 10 := by ring

theorem natToDigits_val (n : ℕ) : digitsValAux (natToDigits n) 0 = n :=
  natToDigitsAux_val _ _ (lt_of_lt_of_le (Nat.lt_pow_self (by norm_num) n)
    (Nat.pow_le_pow_right (by norm_num) (Nat.le_succ n)))

theorem natToDigits_ne_nil (n : ℕ) : natToDigits n ≠ [] := by
  rw [natToDigits, natToDigitsAux]
  by_cases h : n < 10 <;> simp [h]

theorem takeNumChars_all (ds : List Char) (h : ∀ c ∈ ds, isDigitChar c = true) :
    takeNumChars ds = ds := by
  induction ds with
  | nil => rfl
  | cons c rest ih =>
      rw [takeNumChars]
      rw [h c (by simp)]
      simp [ih (fun c hc => h c (by simp [hc]))]

theorem isDigitChar_ne_dot {c : Char} (h : isDigitChar c = true) : ¬(c = '.') := by
  intro hh; subst hh; simp [isDigitChar] at h

theorem splitAtDot_no_dot (ds : List Char) (h : ∀ c ∈ ds, isDigitChar c = true) :
    splitAtDot ds = (ds, none) := by
  induction ds with
  | nil => rfl
  | cons c rest ih =>
      rw [splitAtDot]
      rw [if_neg (isDigitChar_ne_dot (h c (by simp)))]
      simp [ih (fun c hc => h c (by simp [hc]))]

theorem parseDecimal_digits (n : ℕ) : parseDecimal (natToDigits n) = some (n : ℚ) := by
  rw [parseDecimal, splitAtDot_no_dot _ (fun _ hc => natToDigits_digits hc)]
  simp only
  rw [if_pos]
  · rw [natToDigits_val]
  · simp [List.all_eq_true, natToDigits_ne_nil]
    intro c hc
    exact natToDigits_digits hc

theorem isDigitChar_not_ws {c : Char} (h : isDigitChar c = true) :
    (decide (c = ' ') || decide (c = '\t') || decide (c = '\r') || decide (c = '\n')) = false := by
  have h1 : ¬(c = ' ') := by rintro rfl; simp [isDigitChar] at h
  have h2 : ¬(c = '\t') := by rintro rfl; simp [isDigitChar] at h
  have h3 : ¬(c = '\r') := by rintro rfl; simp [isDigitChar] at h
  have h4 : ¬(c = '\n') := by rintro rfl; simp [isDigitChar] at h
  simp [h1, h2, h3, h4]

theorem readNumber_digits (n : ℕ) (l c0 : ℕ) :
    readNumber ⟨natToDigits n, l, c0⟩
      = (.ok ⟨.number (n : ℚ), l, c0⟩, ⟨[], l, c0 + (natToDigits n).length⟩) := by
  rw [readNumber]
  rw [takeNumChars_all _ (fun _ hc => natToDigits_digits hc)]
  rw [parseDecimal_digits]
  simp [List.drop_length]

theorem nextTok_digits (k : ℕ) (n : ℕ) (l c0 : ℕ) :
    nextTok (k + 1) ⟨natToDigits n, l, c0⟩
      = some (.ok ⟨.number (n : ℚ), l, c0⟩, ⟨[], l, c0 + (natToDigits n).length⟩) := by
  obtain ⟨d, ds, hds⟩ : ∃ d ds, natToDigits n = d :: ds := by
    cases h : natToDigits n with
    | nil => exact absurd h (natToDigits_ne_nil n)
    | cons d ds => exact ⟨d, ds, rfl⟩
  have hd : isDigitChar d = true := natToDigits_digits (by rw [hds]; simp)
  rw [hds, nextTok]
  simp only [isDigitChar_not_ws hd, hd, Bool.false_eq_true, if_false, if_true]
  rw [← hds, readNumber_digits]

theorem nextTokenFull_digits (n : ℕ) (l c0 : ℕ) :
    nextTokenFull ⟨natToDigits n, l, c0⟩
      = (.ok ⟨.number (n : ℚ), l, c0⟩, ⟨[], l, c0 + (natToDigits n).length⟩) := by
  rw [nextTokenFull]
  rw [show ((⟨natToDigits n, l, c0⟩ : LexState)).input.length + 1
      = (natToDigits n).length + 1 from rfl]
  rw [nextTok_digits]

theorem nextTokenFull_nil (l c0 : ℕ) :
    nextTokenFull ⟨[], l, c0⟩ = (.ok ⟨.eof, l, c0⟩, ⟨[], l, c0⟩) := rfl

theorem nextTokenFull_minus (ds : List Char) (l c0 : ℕ) :
    nextTokenFull ⟨'-' :: ds, l, c0⟩ = (.ok ⟨.minus, l, c0 + 1⟩, ⟨ds, l, c0 + 1⟩) := rfl

theorem parse_single_number (q : ℚ) (len : ℕ) :
    parseProgramLoop 100 ⟨⟨[], 1, len⟩, ⟨.number q, 1, 0⟩⟩ []
      = some (.ok ([.exprS (.number q)], ⟨⟨[], 1, len⟩, ⟨.eof, 1, len⟩⟩)) := rfl

theorem evalSource_digits (n : ℕ) :
    evalSource "" 100 (natToDigits n) = some (.ok (.number (n : ℚ))) := by
  rw [evalSource, parseSource, newParser, nextTokenFull_digits]
  rw [parse_single_number]
  rfl

theorem advance_digits (n : ℕ) (t : Token) :
    PState.advance ⟨⟨natToDigits n, 1, 1⟩, t⟩
      = ⟨⟨[], 1, 1 + (natToDigits n).length⟩, ⟨.number (n : ℚ), 1, 1⟩⟩ := by
  rw [PState.advance, nextTokenFull_digits]

theorem parseCall_number (k : ℕ) (q : ℚ) (l2 c2 tl tc : ℕ) :
    parseCallF (k + 2) ⟨⟨[], l2, c2⟩, ⟨.number q, tl, tc⟩⟩
      = some (.ok (.number q, ⟨⟨[], l2, c2⟩, ⟨.eof, l2, c2⟩⟩)) := rfl

theorem parseUnary_minus_digits (n : ℕ) :
    parseUnaryF 89 ⟨⟨natToDigits n, 1, 1⟩, ⟨.minus, 1, 1⟩⟩
      = some (.ok (.unary .neg (.number (n : ℚ)),
          ⟨⟨[], 1, 1 + (natToDigits n).length⟩, ⟨.eof, 1, 1 + (natToDigits n).length⟩⟩)) := by
  rw [show (89 : ℕ) = 88 + 1 from rfl, parseUnaryF]
  simp only [advance_digits]
  rw [show (88 : ℕ) = 87 + 1 from rfl, parseUnaryF]
  rw [show (87 : ℕ) = 85 + 2 from rfl]
  simp only [parseCall_number]
  simp [pbind]

theorem powerLoop_eof (k : ℕ) (e : Expr) (lex : LexState) (tl tc : ℕ) :
    powerLoop (k + 1) e ⟨lex, ⟨.eof, tl, tc⟩⟩ = some (.ok (e, ⟨lex, ⟨.eof, tl, tc⟩⟩)) := rfl

theorem factorLoop_eof (k : ℕ) (e : Expr) (lex : LexState) (tl tc : ℕ) :
    factorLoop (k + 1) e ⟨lex, ⟨.eof, tl, tc⟩⟩ = some (.ok (e, ⟨lex, ⟨.eof, tl, tc⟩⟩)) := rfl

theorem termLoop_eof (k : ℕ) (e : Expr) (lex : LexState) (tl tc : ℕ) :
    termLoop (k + 1) e ⟨lex, ⟨.eof, tl, tc⟩⟩ = some (.ok (e, ⟨lex, ⟨.eof, tl, tc⟩⟩)) := rfl

theorem comparisonLoop_eof (k : ℕ) (e : Expr) (lex : LexState) (tl tc : ℕ) :
    comparisonLoop (k + 1) e ⟨lex, ⟨.eof, tl, tc⟩⟩ = some (.ok (e, ⟨lex, ⟨.eof, tl, tc⟩⟩)) := rfl

theorem equalityLoop_eof (k : ℕ) (e : Expr) (lex : LexState) (tl tc : ℕ) :
    equalityLoop (k + 1) e ⟨lex, ⟨.eof, tl, tc⟩⟩ = some (.ok (e, ⟨lex, ⟨.eof, tl, tc⟩⟩)) := rfl

theorem logicAndLoop_eof (k : ℕ) (e : Expr) (lex : LexState) (tl tc : ℕ) :
    logicAndLoop (k + 1) e ⟨lex, ⟨.eof, tl, tc⟩⟩ = some (.ok (e, ⟨lex, ⟨.eof, tl, tc⟩⟩)) := rfl

theorem logicOrLoop_eof (k : ℕ) (e : Expr) (lex : LexState) (tl tc : ℕ) :
    logicOrLoop (k + 1) e ⟨lex, ⟨.eof, tl, tc⟩⟩ = some (.ok (e, ⟨lex, ⟨.eof, tl, tc⟩⟩)) := rfl

theorem parsePower_minus_digits (n : ℕ) :
    parsePowerF 90 ⟨⟨natToDigits n, 1, 1⟩, ⟨.minus, 1, 1⟩⟩
      = some (.ok (.unary .neg (.number (n : ℚ)),
          ⟨⟨[], 1, 1 + (natToDigits n).length⟩, ⟨.eof, 1, 1 + (natToDigits n).length⟩⟩)) := by
  rw [show (90 : ℕ) = 89 + 1 from rfl, parsePowerF]
  simp [parseUnary_minus_digits, pbind, show (89 : ℕ) = 88 + 1 from rfl, powerLoop_eof]

theorem parseFactor_minus_digits (n : ℕ) :
    parseFactorF 91 ⟨⟨natToDigits n, 1, 1⟩, ⟨.minus, 1, 1⟩⟩
      = some (.ok (.unary .neg (.number (n : ℚ)),
          ⟨⟨[], 1, 1 + (natToDigits n).length⟩, ⟨.eof, 1, 1 + (natToDigits n).length⟩⟩)) := by
  rw [show (91 : ℕ) = 90 + 1 from rfl, parseFactorF]
  simp [parsePower_minus_digits, pbind, show (90 : ℕ) = 89 + 1 from rfl, factorLoop_eof]

theorem parseTerm_minus_digits (n : ℕ) :
    parseTermF 92 ⟨⟨natToDigits n, 1, 1⟩, ⟨.minus, 1, 1⟩⟩
      = some (.ok (.unary .neg (.number (n : ℚ)),
          ⟨⟨[], 1, 1 + (natToDigits n).length⟩, ⟨.eof, 1, 1 + (natToDigits n).length⟩⟩)) := by
  rw [show (92 : ℕ) = 91 + 1 from rfl, parseTermF]
  simp [parseFactor_minus_digits, pbind, show (91 : ℕ) = 90 + 1 from rfl, termLoop_eof]

theorem parseComparison_minus_digits (n : ℕ) :
    parseComparisonF 93 ⟨⟨natToDigits n, 1, 1⟩, ⟨.minus, 1, 1⟩⟩
      = some (.ok (.unary .neg (.number (n : ℚ)),
          ⟨⟨[], 1, 1 + (natToDigits n).length⟩, ⟨.eof, 1, 1 + (natToDigits n).length⟩⟩)) := by
  rw [show (93 : ℕ) = 92 + 1 from rfl, parseComparisonF]
  simp [parseTerm_minus_digits, pbind, show (92 : ℕ) = 91 + 1 from rfl, comparisonLoop_eof]

theorem parseEquality_minus_digits (n : ℕ) :
    parseEqualityF 94 ⟨⟨natToDigits n, 1, 1⟩, ⟨.minus, 1, 1⟩⟩
      = some (.ok (.unary .neg (.number (n : ℚ)),
          ⟨⟨[], 1, 1 + (natToDigits n).length⟩, ⟨.eof, 1, 1 + (natToDigits n).length⟩⟩)) := by
  rw [show (94 : ℕ) = 93 + 1 from rfl, parseEqualityF]
  simp [parseComparison_minus_digits, pbind, show (93 : ℕ) = 92 + 1 from rfl, equalityLoop_eof]

theorem parseLogicAnd_minus_digits (n : ℕ) :
    parseLogicAndF 95 ⟨⟨natToDigits n, 1, 1⟩, ⟨.minus, 1, 1⟩⟩
      = some (.ok (.unary .neg (.number (n : ℚ)),
          ⟨⟨[], 1, 1 + (natToDigits n).length⟩, ⟨.eof, 1, 1 + (natToDigits n).length⟩⟩)) := by
  rw [show (95 : ℕ) = 94 + 1 from rfl, parseLogicAndF]
  simp [parseEquality_minus_digits, pbind, show (94 : ℕ) = 93 + 1 from rfl, logicAndLoop_eof]

theorem parseLogicOr_minus_digits (n : ℕ) :
    parseLogicOrF 96 ⟨⟨natToDigits n, 1, 1⟩, ⟨.minus, 1, 1⟩⟩
      = some (.ok (.unary .neg (.number (n : ℚ)),
          ⟨⟨[], 1, 1 + (natToDigits n).length⟩, ⟨.eof, 1, 1 + (natToDigits n).length⟩⟩)) := by
  rw [show (96 : ℕ) = 95 + 1 from rfl, parseLogicOrF]
  simp [parseLogicAnd_minus_digits, pbind, show (95 : ℕ) = 94 + 1 from rfl, logicOrLoop_eof]

theorem parseAssignment_minus_digits (n : ℕ) :
    parseAssignmentF 97 ⟨⟨natToDigits n, 1, 1⟩, ⟨.minus, 1, 1⟩⟩
      = some (.ok (.unary .neg (.number (n : ℚ)),
          ⟨⟨[], 1, 1 + (natToDigits n).length⟩, ⟨.eof, 1, 1 + (natToDigits n).length⟩⟩)) := by
  rw [show (97 : ℕ) = 96 + 1 from rfl, parseAssignmentF]
  simp [parseLogicOr_minus_digits, pbind]

theorem parseExpr_minus_digits (n : ℕ) :
    parseExprF 98 ⟨⟨natToDigits n, 1, 1⟩, ⟨.minus, 1, 1⟩⟩
      = some (.ok (.unary .neg (.number (n : ℚ)),
          ⟨⟨[], 1, 1 + (natToDigits n).length⟩, ⟨.eof, 1, 1 + (natToDigits n).length⟩⟩)) := by
  rw [show (98 : ℕ) = 97 + 1 from rfl, parseExprF]
  exact parseAssignment_minus_digits n

theorem parseStmt_minus_digits (n : ℕ) :
    parseStmtF 99 ⟨⟨natToDigits n, 1, 1⟩, ⟨.minus, 1, 1⟩⟩
      = some (.ok (.exprS (.unary .neg (.number (n : ℚ))),
          ⟨⟨[], 1, 1 + (natToDigits n).length⟩, ⟨.eof, 1, 1 + (natToDigits n).length⟩⟩)) := by
  rw [show (99 : ℕ) = 98 + 1 from rfl, parseStmtF]
  simp [parseExpr_minus_digits, pbind]

theorem parseProgramLoop_eof (k : ℕ) (lex : LexState) (tl tc : ℕ) (acc : List Stmt) :
    parseProgramLoop (k + 1) ⟨lex, ⟨.eof, tl, tc⟩⟩ acc
      = some (.ok (acc.reverse, ⟨lex, ⟨.eof, tl, tc⟩⟩)) := rfl

theorem parseProgram_minus_digits (n : ℕ) :
    parseProgramLoop 100 ⟨⟨natToDigits n, 1, 1⟩, ⟨.minus, 1, 1⟩⟩ []
      = some (.ok ([.exprS (.unary .neg (.number (n : ℚ)))],
          ⟨⟨[], 1, 1 + (natToDigits n).length⟩, ⟨.eof, 1, 1 + (natToDigits n).length⟩⟩)) := by
  rw [show (100 : ℕ) = 99 + 1 from rfl, parseProgramLoop]
  simp [parseStmt_minus_digits, pbind, show (99 : ℕ) = 98 + 1 from rfl, parseProgramLoop_eof]

theorem nextTokenFull_minus_start (ds : List Char) :
    nextTokenFull ⟨'-' :: ds, 1, 0⟩ = (.ok ⟨.minus, 1, 1⟩, ⟨ds, 1, 1⟩) := rfl

theorem evalSource_minus_digits (n : ℕ) :
    evalSource "" 100 ('-' :: natToDigits n) = some (.ok (.number (-(n : ℚ)))) := by
  rw [evalSource, parseSource, newParser, nextTokenFull_minus_start]
  rw [parseProgram_minus_digits]
  rfl

theorem evalSource_intCast (m : ℤ) :
    evalSource "" 100 (valueToString (.number (m : ℚ))) = some (.ok (.number (m : ℚ))) := by
  rw [valueToString, ratRenderChars]
  rw [if_pos (Rat.den_intCast m), Rat.num_intCast]
  rcases lt_or_le m 0 with hm | hm
  · rw [if_pos hm, evalSource_minus_digits]
    congr 3
    rw [Int.cast_natAbs, abs_of_neg hm]
    push_cast
    ring
  · rw [if_neg (not_lt.mpr hm), evalSource_digits]
    congr 3
    rw [Int.cast_natAbs, abs_of_nonneg hm]

/-! ## The claims -/

/-- The C1 probe program:
`let x = 1; fn f() { return x; } fn g() { x = 99; } g(); f()`.
Under the spec-mandated shared-by-reference frames, `g()`'s `assign` writes
the global frame that `f` also reaches, so `f()` must read `99`. -/
def c1ClosureProgram : List Stmt :=
  [.letS "x" (.number 1),
   .funcS "f" [] [.returnS (some (.var "x"))],
   .funcS "g" [] [.exprS (.assign "x" (.number 99))],
   .exprS (.call (.var "g") []),
   .exprS (.call (.var "f") [])]

/-- C1 (code_bug): closures do NOT observe mutations made through `assign`
in the shared enclosing frame, because `Environment::with_parent` clones the
parent and the call arm restores `previous_env` afterwards, discarding the
mutation.  Running `c1ClosureProgram`, `g()`'s `x = 99` lands in a clone of
the global frame that is thrown away when `g` returns, and `f()` reads the
stale `Number(1)` — not the `Number(99)` the claim (and §4.3/§9 of the spec,
which mandates parent-linked shared frames and flags the copy-based variant
as a defect) requires. -/
theorem c1_closure_shared_frames_codebug :
    (evalProgram "" 100 c1ClosureProgram).map Prod.fst = some (.ok (.number 1))
      ∧ Value.number 1 ≠ Value.number 99 :=
  ⟨rfl, by intro h; injection h with h'; exact absurd h' (by norm_num)⟩

/-- C2 (corrected, counterexample): the claim says `2 + 2 * 2` evaluates to
`Number(8.0)`; through the real parse-then-eval pipeline it evaluates to
`Number(6.0)`, and `6 ≠ 8`. -/
theorem c2_precedence_counterexample :
    evalSource "" 100 "2 + 2 * 2".toList = some (.ok (.number 6))
      ∧ (some (.ok (.number 6)) : Option (Except RuntimeError Value))
          ≠ some (.ok (.number 8)) := by
  constructor
  · rw [show (6 : ℚ) = 2 + 2 * 2 by norm_num]; rfl
  · simp only [ne_eq, Option.some.injEq, Except.ok.injEq, Value.number.injEq]
    norm_num

/-- C2 (corrected, amended): `2 + 2 * 2` parses via the precedence ladder as
`2 + (2 * 2)` (multiplicative binds tighter — not left-to-right, which would
give `8`) and evaluates to `Number(6.0)`, while `(2 + 2) * 2` evaluates to
`Number(8.0)`; the two differ. -/
theorem c2_precedence_amended :
    parseSource 100 "2 + 2 * 2".toList
      = some (.ok [.exprS (.binary (.number 2) .add
          (.binary (.number 2) .mul (.number 2)))])
      ∧ evalSource "" 100 "2 + 2 * 2".toList = some (.ok (.number 6))
      ∧ evalSource "" 100 "(2 + 2) * 2".toList = some (.ok (.number 8)) := by
  refine ⟨rfl, ?_, ?_⟩
  · rw [show (6 : ℚ) = 2 + 2 * 2 by norm_num]; rfl
  · rw [show (8 : ℚ) = (2 + 2) * 2 by norm_num]; rfl

/-- C3 (corrected, counterexample): the claim says a `let` inside a block
statement is not visible in the enclosing environment afterwards; in the
code `eval_block` runs the nested statements in the CURRENT frame, so after
`{ let y = 5; } y` the trailing `y` evaluates to `Number(5.0)` instead of
the undefined-variable error the claim requires. -/
theorem c3_block_frame_counterexample :
    (evalProgram "" 100 [.blockS [.letS "y" (.number 5)], .exprS (.var "y")]).map Prod.fst
      = some (.ok (.number 5))
      ∧ (some (.ok (.number 5)) : Option (Except RuntimeError Value))
          ≠ some (.error (.Message "Undefined variable 'y'")) :=
  ⟨rfl, by intro h; injection h with h'; exact Except.noConfusion h'⟩

/-- C3 (corrected, amended): a block statement executes its nested
statements sequentially in the current frame — no child frame is created
(the `Stmt::Block` arm delegates to `eval_block`, whose own doc comment says
it does not open a new environment) — so a `let` inside the block persists
in the enclosing environment afterwards, while pre-existing bindings not
assigned inside the block are unchanged (`let x = 1; { let y = 5; } x + y`
yields `Number(6.0)`). -/
theorem c3_block_frame_amended :
    (∀ (stdin : String) (fuel : ℕ) (env : Environment) (stmts : List Stmt),
      evalStmt stdin (fuel + 1) env (.blockS stmts) = evalBlockS stdin fuel env stmts)
      ∧ (evalProgram "" 100 [.letS "x" (.number 1), .blockS [.letS "y" (.number 5)],
          .exprS (.binary (.var "x") .add (.var "y"))]).map Prod.fst
          = some (.ok (.number 6)) := by
  refine ⟨fun _ _ _ _ => rfl, ?_⟩
  rw [show (6 : ℚ) = 1 + 5 by norm_num]; rfl

/-- C4 (corrected, counterexample): a `return` at the top level outside any
call is delivered to the caller as the raw internal `RuntimeError::Return`
marker, not as a descriptive `Message` — the `Return` arm of `eval_stmt`
raises `Err(Return(v))` and nothing outside a `Call` expression intercepts
it. -/
theorem c4_return_counterexample :
    (evalProgram "" 100 [.returnS (some (.number 7))]).map Prod.fst
      = some (.error (.Return (.number 7)))
      ∧ ∀ msg, RuntimeError.Return (.number 7) ≠ RuntimeError.Message msg :=
  ⟨rfl, fun _ h => RuntimeError.noConfusion h⟩

/-- C4 (corrected, amended): a `return` executed inside a function call is
intercepted exactly at that call's boundary and converted into the call's
ordinary result value (shown concretely for `fn f() { return 7; } f()` and
in general for any user-function dispatch whose body ends in the `Return`
marker), but a `return` reaching the top level outside any call propagates
to the caller as the raw `RuntimeError::Return(value)` marker — which the
CLI renders as a runtime error, so it is not a silent success, but it is
not the descriptive `Message` the claim requires either. -/
theorem c4_return_amended :
    (evalProgram "" 100 [.funcS "f" [] [.returnS (some (.number 7))],
        .exprS (.call (.var "f") [])]).map Prod.fst = some (.ok (.number 7))
      ∧ (evalProgram "" 100 [.letS "a" (.number 2), .returnS (some (.var "a"))]).map Prod.fst
          = some (.error (.Return (.number 2)))
      ∧ (∀ (stdin : String) (n : ℕ) (env env1 env2 envB : Environment) (fexpr : Expr)
          (argsE : List Expr) (func : Fn) (args : List Value) (v : Value),
          evalExpr stdin n env fexpr = some (.ok (.function func), env1) →
          evalExprs stdin n env1 argsE = some (.ok args, env2) →
          (func.params.isEmpty && func.body.isEmpty && functionIsInput fexpr) = false →
          (func.params == ["x"] && func.body.isEmpty && functionIsToNumber fexpr) = false →
          (func.params == ["list"] && func.body.isEmpty && functionIsLength fexpr) = false →
          (func.params == ["list", "item"] && func.body.isEmpty
            && functionIsPush fexpr) = false →
          (func.params == ["list", "index"] && func.body.isEmpty
            && functionIsRemove fexpr) = false →
          func.params.length = args.length →
          evalBodyF stdin n (bindParams (Environment.withParent env2) func.params args)
            func.body = some (.error (.Return v), envB) →
          evalExpr stdin (n + 1) env (.call fexpr argsE) = some (.ok v, env2)) := by
  refine ⟨rfl, rfl, ?_⟩
  intro stdin n env env1 env2 envB fexpr argsE func args v h1 h2 g1 g2 g3 g4 g5 harity hbody
  simp only [evalExpr]
  rw [h1]
  simp only [ebind]
  rw [h2]
  simp [g1, g2, g3, g4, g5, harity, hbody]

/-- The interpreter state used by the C4 witness: the initial environment
with `fn f() { return 7; }` bound. -/
def c4WitnessEnv : Environment :=
  initialEnv.set "f" (.function (.mk [] [.returnS (some (.number 7))]))

/-- Witness for C4's amended theorem: its general interception conjunct,
applied to the concrete call `f()` with `fn f() { return 7; }` — the
`Return` marker raised by the body comes back as the plain value `7`. -/
theorem c4_return_amended_witness :
    evalExpr "" 6 c4WitnessEnv (.call (.var "f") []) = some (.ok (.number 7), c4WitnessEnv) :=
  c4_return_amended.2.2 "" 5 c4WitnessEnv c4WitnessEnv c4WitnessEnv
    (.child [] c4WitnessEnv) (.var "f") [] (.mk [] [.returnS (some (.number 7))]) []
    (.number 7) rfl rfl rfl rfl rfl rfl rfl rfl rfl

/-- C5 (corrected, counterexample): the builtin interception in the `Call`
arm runs BEFORE the arity check, so `to_number("3", "4")` — two arguments
against the one-parameter builtin `to_number` — succeeds with `Number(3.0)`
instead of raising "argument count mismatch". -/
theorem c5_arity_counterexample :
    initialEnv.get "to_number" = some (.function (.mk ["x"] []))
      ∧ (Fn.mk ["x"] []).params.length
          ≠ ([Value.string "3", Value.string "4"] : List Value).length
      ∧ (evalProgram "" 100
          [.exprS (.call (.var "to_number") [.string "3", .string "4"])]).map Prod.fst
          = some (.ok (.number 3)) :=
  ⟨rfl, by decide, rfl⟩

/-- C5 (corrected, amended): for every call whose callee evaluates to a
function value NOT captured by one of the five builtin interception patterns
(`input`/`to_number`/`length`/`push`/`remove`, matched by callee name,
parameter shape and empty body), an argument count different from the
parameter count fails with "Argument count mismatch"; the intercepted
builtin calls bypass the arity check and can succeed with extra arguments
(see the counterexample). -/
theorem c5_arity_amended (stdin : String) (n : ℕ) (env env1 env2 : Environment)
    (fexpr : Expr) (argsE : List Expr) (func : Fn) (args : List Value)
    (h1 : evalExpr stdin n env fexpr = some (.ok (.function func), env1))
    (h2 : evalExprs stdin n env1 argsE = some (.ok args, env2))
    (g1 : (func.params.isEmpty && func.body.isEmpty && functionIsInput fexpr) = false)
    (g2 : (func.params == ["x"] && func.body.isEmpty && functionIsToNumber fexpr) = false)
    (g3 : (func.params == ["list"] && func.body.isEmpty && functionIsLength fexpr) = false)
    (g4 : (func.params == ["list", "item"] && func.body.isEmpty
      && functionIsPush fexpr) = false)
    (g5 : (func.params == ["list", "index"] && func.body.isEmpty
      && functionIsRemove fexpr) = false)
    (harity : func.params.length ≠ args.length) :
    evalExpr stdin (n + 1) env (.call fexpr argsE)
      = some (.error (.Message "Argument count mismatch"), env2) := by
  simp only [evalExpr]
  rw [h1]
  simp only [ebind]
  rw [h2]
  simp [g1, g2, g3, g4, g5, harity]

/-- The interpreter state used by the C5 witness: the initial environment
with the one-parameter user function `fn f(x) { 1 }` bound. -/
def c5WitnessEnv : Environment :=
  initialEnv.set "f" (.function (.mk ["x"] [.exprS (.number 1)]))

/-- Witness for C5's amended theorem: calling the one-parameter user
function `f` with two arguments raises "Argument count mismatch". -/
theorem c5_arity_amended_witness :
    evalExpr "" 6 c5WitnessEnv (.call (.var "f") [.number 1, .number 2])
      = some (.error (.Message "Argument count mismatch"), c5WitnessEnv) :=
  c5_arity_amended "" 5 c5WitnessEnv c5WitnessEnv c5WitnessEnv (.var "f")
    [.number 1, .number 2] (.mk ["x"] [.exprS (.number 1)])
    [.number 1, .number 2] rfl rfl rfl rfl rfl rfl rfl (by decide)

/-- C6 (corrected, counterexample): `value_to_string` renders a `String`
value without quotes, so the rendering of `String("x")` is the bare text
`x`, which parses back as a variable reference and evaluates to an
undefined-variable error — not to the original `String` value. -/
theorem c6_roundtrip_counterexample :
    valueToString (.string "x") = "x".toList
      ∧ evalSource "" 100 (valueToString (.string "x"))
          = some (.error (.Message "Undefined variable 'x'"))
      ∧ (some (.error (.Message "Undefined variable 'x'"))
          : Option (Except RuntimeError Value)) ≠ some (.ok (.string "x")) := by
  have h : valueToString (.string "x") = "x".toList := by simp [valueToString]
  exact ⟨h, by rw [h]; rfl, by intro hh; injection hh with h1; exact Except.noConfusion h1⟩

/-- C6 (corrected, amended): the round trip holds for every `Bool` value and
for every integer-valued `Number` (nonnegative ones re-parse as a numeric
literal, negative ones via a unary negation around the digit literal — both
reproduce an equal `Value`); it fails for `String` values, whose rendering
omits the quotes (see the counterexample).  `f64` values that are not
integers are outside the rational model (Rust's shortest-round-trip
`Display` has no exact `ℚ` counterpart), and `inf`/`NaN` render as bare
identifiers that do not re-parse as literals. -/
theorem c6_roundtrip_amended :
    (∀ m : ℤ, evalSource "" 100 (valueToString (.number (m : ℚ)))
        = some (.ok (.number (m : ℚ))))
      ∧ (∀ b : Bool, evalSource "" 100 (valueToString (.bool b))
          = some (.ok (.bool b))) := by
  refine ⟨evalSource_intCast, ?_⟩
  intro b
  cases b <;> rfl

/-- C7 (code_bug): the source text `push([1,2], 3)` cannot be evaluated at
all: `lexer.rs` has no token for `[` (its `TokenKind` enum does not even
declare the `LBracket` the parser's list-literal and indexing arms match
on), so `[` falls into the unrecognized-character branch and the parse
fails with an `UnexpectedToken` wrapping "Unexpected character '['".  The
runtime halves of the claim are exactly as specified — on pre-built ASTs,
`push([1,2], 3)` yields `[1,2,3]`, `remove([1,2,3], 1)` yields `[1,3]`, and
`remove([1], 5)` raises the out-of-range error — which shows the lexer gap,
not the builtins, breaks the claimed end-to-end behaviour. -/
theorem c7_list_builtins_codebug :
    parseSource 100 "push([1,2], 3)".toList
      = some (.error ⟨.unexpectedToken,
          "Token inattendu : Token \x7b kind: Error(\"Unexpected character '['\"), line: 1, col: 6 \x7d",
          1, 6⟩)
      ∧ (evalProgram "" 100 [.exprS (.call (.var "push")
          [.list [.number 1, .number 2], .number 3])]).map Prod.fst
          = some (.ok (.list [.number 1, .number 2, .number 3]))
      ∧ (evalProgram "" 100 [.exprS (.call (.var "remove")
          [.list [.number 1, .number 2, .number 3], .number 1])]).map Prod.fst
          = some (.ok (.list [.number 1, .number 3]))
      ∧ (evalProgram "" 100 [.exprS (.call (.var "remove")
          [.list [.number 1], .number 5])]).map Prod.fst
          = some (.error (.Message "remove: index out of bounds")) :=
  ⟨rfl, rfl, rfl, rfl⟩

/-- C8 (confirmed): `Div` on two `Number` operands with a zero right operand
always raises the "Division by zero" `Message`, and conversely a `Div` of
two `Number`s only succeeds when the divisor is nonzero — a zero divisor can
never produce a `Number` result (no `inf`/`NaN`, which do not exist in the
rational model precisely because this guard keeps `/` total on nonzero
divisors). -/
theorem c8_div_by_zero :
    (∀ a : ℚ, evalBinary .div (.number a) (.number 0)
        = .error (.Message "Division by zero"))
      ∧ (∀ (a b : ℚ) (v : Value),
          evalBinary .div (.number a) (.number b) = .ok v → b ≠ 0) := by
  constructor
  · intro a; simp [evalBinary]
  · intro a b v h hb
    subst hb
    simp [evalBinary] at h

/-- Witness for C8: `6 / 3` succeeds (with `Number(2.0)`), so the
nonzero-divisor direction applies to a satisfiable instance. -/
theorem c8_div_by_zero_witness : (3 : ℚ) ≠ 0 :=
  c8_div_by_zero.2 6 3 (.number 2)
    (by rw [show (2 : ℚ) = 6 / 3 by norm_num]; rfl)

/-- C9 (confirmed): whatever a user-function call's body does — finish
normally, exit via `Return`, or fail with a `Message` — and whichever
dispatch branch fires (builtin interception, arity failure, or the user
path), the environment after the whole `Call` expression is exactly
`previous_env`: the environment as it stood after the callee and the
arguments were evaluated.  In particular the body's assignments to
enclosing-scope variables, which land in the cloned parent chain of the
local frame, are discarded. -/
theorem c9_env_restored (stdin : String) (n : ℕ) (env env1 env2 : Environment)
    (fexpr : Expr) (argsE : List Expr) (func : Fn) (args : List Value)
    (h1 : evalExpr stdin n env fexpr = some (.ok (.function func), env1))
    (h2 : evalExprs stdin n env1 argsE = some (.ok args, env2))
    (r : Except RuntimeError Value) (env' : Environment)
    (hres : evalExpr stdin (n + 1) env (.call fexpr argsE) = some (r, env')) :
    env' = env2 := by
  simp only [evalExpr] at hres
  rw [h1] at hres
  simp only [ebind] at hres
  rw [h2] at hres
  repeat' split at hres
  all_goals simp_all

/-- The interpreter state used by the C9 witness: `x = 1` and a function
whose body assigns `99` to the enclosing `x`. -/
def c9WitnessEnv : Environment :=
  (initialEnv.set "x" (.number 1)).set "f"
    (.function (.mk [] [.exprS (.assign "x" (.number 99))]))

/-- Witness for C9: calling `f()` (whose body performs `x = 99`) leaves the
interpreter's environment exactly as it was before the call — the assignment
to the enclosing `x` is discarded. -/
theorem c9_env_restored_witness : c9WitnessEnv = c9WitnessEnv :=
  c9_env_restored "" 5 c9WitnessEnv c9WitnessEnv c9WitnessEnv (.var "f") []
    (.mk [] [.exprS (.assign "x" (.number 99))]) [] rfl rfl
    (.ok (.number 99)) c9WitnessEnv rfl

/-- C10 (confirmed): `Unary Neg` never raises an operand-type error — on any
non-`Number` operand value `get_num` coerces to `0.0` and the result is
`Number(-0.0)` (in the rational model `-0 = 0`, matching `f64`'s structural
equality where `-0.0 == 0.0`), and on `Number(n)` the result is
`Number(-n)`. -/
theorem c10_unary_neg_coercion (stdin : String) (n : ℕ) (env env1 : Environment)
    (e : Expr) :
    (∀ v, evalExpr stdin n env e = some (.ok v, env1) → (∀ q, v ≠ .number q) →
      evalExpr stdin (n + 1) env (.unary .neg e) = some (.ok (.number 0), env1))
      ∧ (∀ q : ℚ, evalExpr stdin n env e = some (.ok (.number q), env1) →
        evalExpr stdin (n + 1) env (.unary .neg e)
          = some (.ok (.number (-q)), env1)) := by
  constructor
  · intro v h hv
    simp only [evalExpr]
    rw [h]
    simp only [ebind]
    cases v with
    | number q => exact absurd rfl (hv q)
    | _ => simp [getNum]
  · intro q h
    simp only [evalExpr]
    rw [h]
    simp only [ebind, getNum]

/-- Witness for C10: negating the boolean `true` (not a `Number`) succeeds
with `Number(0)` rather than raising an operand-type error. -/
theorem c10_unary_neg_coercion_witness :
    evalExpr "" 2 initialEnv (.unary .neg (.bool true))
      = some (.ok (.number 0), initialEnv) :=
  (c10_unary_neg_coercion "" 1 initialEnv initialEnv (.bool true)).1 (.bool true)
    rfl (fun _ h => Value.noConfusion h)

end EDL
